import Mathlib

set_option linter.unusedVariables false

/-!
Shallow embedding of the two MCP relay servers of this repository:
`src/Proxmox/proxmox_server.py` and `src/Document/document_server.py`.

Tool handlers are modelled as computations in a writer-plus-exception
monad `M`: a result is a pair of an `Except Exc α` (normal return value
or a Python exception escaping the handler) and the list of external
calls (hypervisor REST requests, authentication, SSH sessions,
document-library file accesses) attempted, in order.  The behaviour of
the external world (the hypervisor API, the SSH layer, the filesystem)
is an explicit oracle structure passed to each handler.
-/

namespace MCP

/-- A single quote character, used inside message literals. -/
def sq : String := String.singleton (Char.ofNat 39)

/-- Wrap a string in single quotes, as the Python f-strings do. -/
def q (s : String) : String := sq ++ s ++ sq

/-- The whitespace characters Python `str.strip()` removes (the ASCII ones;
no string in this development carries non-ASCII whitespace). -/
def pyWhitespace (c : Char) : Bool :=
  c = ' ' || c = '\t' || c = '\n' || c = Char.ofNat 13 || c = Char.ofNat 11 || c = Char.ofNat 12

/-- Python `str.strip()` (with no argument): trim whitespace at both ends. -/
def pyStrip (s : String) : String :=
  String.mk (((s.toList.dropWhile pyWhitespace).reverse.dropWhile pyWhitespace).reverse)

/-- Python truthiness of a string: non-empty strings are truthy. -/
def pyTruthy (s : String) : Bool := s ≠ ""

/-- Python `str(x)` for an optional string; `None` prints as `"None"`. -/
def pyShowOptStr : Option String → String
  | none => "None"
  | some s => s

/-- Python `str(x)` for an optional integer; `None` prints as `"None"`. -/
def pyShowOptInt : Option Int → String
  | none => "None"
  | some i => toString i

/-- Python `str(x)` for an optional natural number; `None` prints as
`"None"`. -/
def pyShowOptNat : Option Nat → String
  | none => "None"
  | some n => Nat.repr n

/-- Python `sep.join(parts)`. -/
def pyJoin (sep : String) : List String → String
  | [] => ""
  | [a] => a
  | a :: b :: rest => a ++ sep ++ pyJoin sep (b :: rest)

/-- Does the list `hay` start with `needle`?  (`list prefix` test used by the
string helpers below.) -/
def listStartsWith : List Char → List Char → Bool
  | [], _ => true
  | _ :: _, [] => false
  | a :: as, b :: bs => a = b && listStartsWith as bs

/-- Python's `needle in hay` substring test on lists of characters.
The empty needle is contained in everything, as in Python. -/
def listContainsSub (needle : List Char) : List Char → Bool
  | [] => listStartsWith needle []
  | c :: rest => listStartsWith needle (c :: rest) || listContainsSub needle rest

/-- Python's `needle in hay` substring test on strings. -/
def strContains (hay needle : String) : Bool :=
  listContainsSub needle.toList hay.toList

/-- `strStarts s pre`: does `s` start with `pre`. -/
def strStarts (s pre : String) : Bool :=
  listStartsWith pre.toList s.toList

/-- Index of the first occurrence of `needle` in `hay`, if any. -/
def findSubAux (needle : List Char) : List Char → Nat → Option Nat
  | [], i => if needle = [] then some i else none
  | c :: rest, i =>
    if listStartsWith needle (c :: rest) then some i else findSubAux needle rest (i + 1)

/-- Python `str.replace(old, new)` on character lists: replace every
(non-overlapping, leftmost-first) occurrence of `old`. -/
def listReplace (old new : List Char) : List Char → Nat → List Char
  | hay, 0 => hay
  | hay, fuel + 1 =>
    match hay with
    | [] => []
    | c :: rest =>
      if old ≠ [] ∧ listStartsWith old (c :: rest) then
        new ++ listReplace old new ((c :: rest).drop old.length) fuel
      else
        c :: listReplace old new rest fuel

/-- Python `str.replace(old, new)` on strings (the `old` arguments used by the
source are never empty). -/
def strReplace (s old new : String) : String :=
  String.mk (listReplace old.toList new.toList s.toList s.toList.length)

/-! ## Exceptions, external calls and the handler monad -/

/-- A Python exception as observed by the handlers: `isResource` marks
`proxmoxer.core.ResourceException`, the only exception class that the
guest-agent `try` blocks catch specifically. -/
structure Exc where
  isResource : Bool
  msg : String
deriving DecidableEq, Repr

/-- A kind-of-value stored in a spreadsheet cell or produced by `json.loads`. -/
inductive JsonVal where
  | str (s : String)
  | num (n : Int)
  | bool (b : Bool)
  | null
  | arr (xs : List JsonVal)
  | obj (fields : List (String × JsonVal))

/-- Word-document run model (python-docx `Run`): text, bold/italic flags and
an optional inline picture added by `run.add_picture`. -/
structure DocRun where
  text : String
  bold : Bool
  italic : Bool
  image : Option String
deriving DecidableEq, Repr

/-- Paragraph alignment (python-docx `WD_ALIGN_PARAGRAPH`). -/
inductive ParaAlign where
  | default
  | left
  | center
deriving DecidableEq, Repr

/-- Word-document paragraph model: a list of runs plus alignment.
`paragraph.text` is the concatenation of the run texts. -/
structure Para where
  runs : List DocRun
  align : ParaAlign
deriving DecidableEq, Repr

/-- python-docx `paragraph.text` getter: concatenation of the run texts. -/
def paraText (p : Para) : String := String.join (p.runs.map (·.text))

/-- python-docx `paragraph.text = t` setter: the runs are replaced by a single
plain run holding `t`; alignment is a separate property and is kept. -/
def setParaText (p : Para) (t : String) : Para :=
  { p with runs := [⟨t, false, false, none⟩] }

/-- A table cell: a list of paragraphs. -/
structure DocCell where
  paras : List Para
deriving DecidableEq, Repr

/-- A Word table: style name, centered flag and rows of cells. -/
structure DocTable where
  style : String
  centered : Bool
  rows : List (List DocCell)
deriving DecidableEq, Repr

/-- A Word document: its (top-level) paragraphs and its tables.  The source
only ever reads `doc.paragraphs` and `doc.tables`, so the interleaving of
paragraphs and tables in the body is not represented; tables added by the
placeholder substitution are appended to the table list. -/
structure WordDoc where
  paras : List Para
  tables : List DocTable
deriving DecidableEq, Repr

/-- An external call attempted by a handler.  `auth` is the authentication
request performed when `get_proxmox_client` constructs the `ProxmoxAPI`
client (its docstring: "Helper to authenticate and return the ProxmoxAPI
client"); the rest are the individual REST endpoints, SSH sessions, sleeps
of the poll loop, and document-library file accesses. -/
inductive Call where
  | auth
  | clusterResourcesGet
  | qemuListGet (node : String)
  | lxcListGet (node : String)
  | clonePost (node template_id newid name : String)
  | configPost (node vmid : String) (updates : List (String × String))
  | configGet (node vmid : String)
  | resizePut (node vmid disk size : String)
  | snapshotPost (node vmid name description : String)
  | snapshotListGet (node vmid : String)
  | snapshotRollbackPost (node vmid name : String)
  | snapshotDeleteReq (node vmid name : String)
  | lxcCreatePost (node vmid hostname password ostemplate : String)
  | vmDeleteReq (node vmid : String)
  | versionGet
  | nodeStatusGet (node : String)
  | agentInfoGet (node vmid : String)
  | agentExecPost (node vmid : String) (command : List String)
  | agentExecStatusGet (node vmid : String) (pid : Nat)
  | sleepSec (n : Nat)
  | sshExec (ip : String) (port : Int) (user command : String)
  | ensureOutputDir
  | templateLoad (path : String)
  | workbookSave (path : String) (rows : List (List JsonVal))
  | docSave (path : String) (doc : WordDoc)

/-- Handler-computation monad: an `Except` result together with the trace of
external calls attempted. -/
abbrev M (α : Type) := Except Exc α × List Call

/-- `pure` of `M`. -/
def mPure (a : α) : M α := (.ok a, [])

/-- `bind` of `M`: sequencing keeps the calls already attempted even when an
exception escapes. -/
def mBind (m : M α) (f : α → M β) : M β :=
  match m with
  | (.error e, t) => (.error e, t)
  | (.ok a, t) => ((f a).1, t ++ (f a).2)

instance : Monad M where
  pure := mPure
  bind := mBind

/-- Record an external call that yields no interesting value. -/
def emit (c : Call) : M Unit := (.ok (), [c])

/-- Raise a Python exception. -/
def throwExc (e : Exc) : M α := (.error e, [])

/-- Attempt external call `c`; the oracle decides the outcome `r`. -/
def fromExcept (c : Call) (r : Except Exc α) : M α := (r, [c])

/-- Lift a pure `Except` value (no external call attempted). -/
def liftExcept (r : Except Exc α) : M α := (r, [])

/-- Python `try: body except Exception as e: handler e` — catches every
exception. -/
def tryAll (body : M α) (handler : Exc → M α) : M α :=
  match body with
  | (.ok a, t) => (.ok a, t)
  | (.error e, t) => ((handler e).1, t ++ (handler e).2)

/-- Python `try: body except ResourceException as e: handler e` — catches
only `proxmoxer` `ResourceException`s, anything else keeps propagating. -/
def tryResource (body : M α) (handler : Exc → M α) : M α :=
  match body with
  | (.ok a, t) => (.ok a, t)
  | (.error e, t) =>
    if e.isResource then ((handler e).1, t ++ (handler e).2) else (.error e, t)

/-- The `log_activity` decorator wrapping every Proxmox tool except
`proxmox_get_server_specs`: any exception escaping the handler body is
converted into an "Internal Server Error" string, so a tool invocation
never propagates an exception. -/
def log_activity (tool_name : String) (body : M String) : M String :=
  match body with
  | (.ok s, t) => (.ok s, t)
  | (.error e, t) => (.ok ("❌ Internal Server Error in " ++ tool_name ++ ": " ++ e.msg), t)

/-! ## Utility functions of `proxmox_server.py` -/

/-- `string.ascii_lowercase`. -/
def ascii_lowercase : List Char := (List.range 26).map (fun i => Char.ofNat (97 + i))

/-- `string.ascii_uppercase`. -/
def ascii_uppercase : List Char := (List.range 26).map (fun i => Char.ofNat (65 + i))

/-- `string.digits`. -/
def string_digits : List Char := (List.range 10).map (fun i => Char.ofNat (48 + i))

/-- `string.punctuation`: the 32 ASCII punctuation characters. -/
def string_punctuation : List Char :=
  ((List.range 15).map (fun i => Char.ofNat (33 + i))) ++
  ((List.range 7).map (fun i => Char.ofNat (58 + i))) ++
  ((List.range 6).map (fun i => Char.ofNat (91 + i))) ++
  ((List.range 4).map (fun i => Char.ofNat (123 + i)))

/-- The alphabet of `generate_secure_password`:
`string.ascii_letters + string.digits + string.punctuation`. -/
def passwordAlphabet : List Char :=
  ascii_lowercase ++ ascii_uppercase ++ string_digits ++ string_punctuation

/-- Python `c.islower()` for the ASCII characters of the password alphabet. -/
def pyIsLower (c : Char) : Bool := 97 ≤ c.toNat && c.toNat ≤ 122

/-- Python `c.isupper()` for the ASCII characters of the password alphabet. -/
def pyIsUpper (c : Char) : Bool := 65 ≤ c.toNat && c.toNat ≤ 90

/-- Python `c.isdigit()` for the ASCII characters of the password alphabet. -/
def pyIsDigit (c : Char) : Bool := 48 ≤ c.toNat && c.toNat ≤ 57

/-- `secrets.choice(alphabet)` given a random draw `r`: an arbitrary element
of the alphabet (every value of `r` selects some element). -/
def secretsChoice (r : Nat) : Char :=
  passwordAlphabet.getD (r % passwordAlphabet.length) (Char.ofNat 97)

/-- The candidate-acceptance check of `generate_secure_password`: at least one
lowercase letter, one uppercase letter, one digit and one punctuation
character. -/
def passwordOk (p : List Char) : Bool :=
  p.any pyIsLower && p.any pyIsUpper && p.any pyIsDigit &&
    p.any (fun c => string_punctuation.contains c)

/-- One candidate of the `while True` loop: `length` independent draws from
the alphabet (`rand round i` is the draw for character `i` of round
`round`). -/
def passwordCandidate (rand : Nat → Nat → Nat) (round length : Nat) : List Char :=
  (List.range length).map (fun i => secretsChoice (rand round i))

/-- The `while True:` loop of `generate_secure_password`, bounded by a fuel
for the purposes of the model; the source loops until a candidate passes
the check, so `none` corresponds to the (probability-zero, never-returning)
case where no candidate within `fuel` rounds passes. -/
def generate_secure_password_go (rand : Nat → Nat → Nat) (length round : Nat) :
    Nat → Option (List Char)
  | 0 => none
  | fuel + 1 =>
    let password := passwordCandidate rand round length
    if passwordOk password then some password
    else generate_secure_password_go rand length (round + 1) fuel

/-- `generate_secure_password(length)` under the random oracle `rand`. -/
def generate_secure_password (rand : Nat → Nat → Nat) (fuel length : Nat) :
    Option (List Char) :=
  generate_secure_password_go rand length 0 fuel

/-- The default `length=12` of `generate_secure_password`. -/
def generate_secure_password_default_length : Nat := 12

/-- A cluster resource entry as returned by
`proxmox.cluster.resources.get(type="vm")`: only the (optional) `vmid`
field is read. -/
structure ClusterRes where
  vmid : Option Nat
deriving DecidableEq, Repr

/-- The `while candidate in existing_ids: candidate += 1` scan of
`get_next_vmid`. -/
def nextFreeFrom (existing : List Nat) (candidate : Nat) : Nat :=
  if h : candidate ∈ existing then nextFreeFrom existing (candidate + 1) else candidate
termination_by (existing.foldr max 0) + 1 - candidate
decreasing_by
  have hle : candidate ≤ existing.foldr max 0 := by
    induction existing with
    | nil => cases h
    | cons a l ih =>
      rcases List.mem_cons.mp h with rfl | hmem
      · exact le_max_of_le_left le_rfl
      · exact le_max_of_le_right (ih hmem)
  omega

/-- `get_next_vmid`: find the next available VMID starting from 100, given
the cluster resource list (entries without a `vmid` field are skipped). -/
def get_next_vmid (cluster_resources : List ClusterRes) : String :=
  let existing_ids := cluster_resources.filterMap (·.vmid)
  Nat.repr (nextFreeFrom existing_ids 100)

/-! ## The hypervisor / SSH / RNG oracle -/

/-- A VM or container entry of `proxmox.nodes(node).qemu.get()` /
`.lxc.get()`: only `vmid`, `name` and `status` are read. -/
structure VmInfo where
  vmid : Option Nat
  name : Option String
  status : Option String
deriving DecidableEq, Repr

/-- A snapshot entry of `vm_res.snapshot.get()`; the timestamp fields are
kept as the strings they are formatted to. -/
structure SnapInfo where
  name : Option String
  description : Option String
  snaptime : Option String
  timeField : Option String
deriving DecidableEq, Repr

/-- A guest-agent `exec-status` response: `exited`, `exitcode`, `out-data`
and `err-data` fields (each possibly missing). -/
structure AgentStatus where
  exited : Option Nat
  exitcode : Option Int
  outData : Option String
  errData : Option String
deriving DecidableEq, Repr

/-- A `proxmox.version.get()` response. -/
structure PveVersion where
  version : Option String
  release : Option String
deriving DecidableEq, Repr

/-- A `proxmox.nodes(node).status.get()` response: the fields read by
`proxmox_get_server_specs`. -/
structure NodeStatus where
  cpuModel : Option String
  cpuCores : Option Nat
  memTotal : Option Nat
  memUsed : Option Nat
deriving DecidableEq, Repr

/-- The external world as seen by the Proxmox handlers: whether credentials
are configured, the outcome of the authentication performed by the
`ProxmoxAPI` constructor, the response (or exception) of each REST
endpoint, the result triple of `_execute_ssh_command` (which catches its
own exceptions and never raises), and the random oracle driving
`generate_secure_password` (`rand round i` is draw `i` of round `round`;
`passwordFuel` bounds the unbounded acceptance loop for the model). -/
structure PxEnv where
  credsOk : Bool
  authExc : Option Exc
  qemuList : Except Exc (List VmInfo)
  lxcList : Except Exc (List VmInfo)
  clusterResources : Except Exc (List ClusterRes)
  cloneRes : Except Exc Unit
  configPostRes : Except Exc Unit
  configGetRes : Except Exc (List String)
  resizeRes : Except Exc Unit
  snapshotCreateRes : Except Exc Unit
  snapshotListRes : Except Exc (List SnapInfo)
  snapshotRollbackRes : Except Exc Unit
  snapshotDeleteRes : Except Exc Unit
  lxcCreateRes : Except Exc Unit
  versionRes : Except Exc PveVersion
  nodeStatusRes : Except Exc NodeStatus
  agentInfoRes : Except Exc Unit
  agentExecRes : Except Exc (Option Nat)
  agentExecStatus : Nat → Nat → Except Exc AgentStatus
  sshExecRes : Int × String × String
  rand : Nat → Nat → Nat
  passwordFuel : Nat

/-- `get_proxmox_client`: raises `ValueError` when the credentials are not
configured; otherwise constructs the `ProxmoxAPI` client, which (per the
helper's docstring, "Helper to authenticate and return the ProxmoxAPI
client") performs the password-authentication request — an external call
that may itself fail. -/
def get_proxmox_client (env : PxEnv) : M Unit :=
  if ¬ env.credsOk then
    throwExc ⟨false, "Missing Proxmox credentials. Set PROXMOX_URL, PROXMOX_USER, and PROXMOX_PASSWORD."⟩
  else
    match env.authExc with
    | some e => (.error e, [.auth])
    | none => (.ok (), [.auth])

/-! ## Proxmox tool handlers -/

/-- One output line of `proxmox_list_vms` for a VM (`kind = "VM"`) or a
container (`kind = "LXC"`). -/
def vmLine (kind : String) (vm : VmInfo) : String :=
  let status := vm.status
  let icon := if status = some "running" then "🟢" else "🔴"
  icon ++ " [" ++ kind ++ " " ++ pyShowOptNat vm.vmid ++ "] " ++
    pyShowOptStr vm.name ++ " - " ++ pyShowOptStr status

/-- `proxmox_list_vms(node)`. -/
def proxmox_list_vms (env : PxEnv) (node : String) : M String :=
  log_activity "proxmox_list_vms" (
    if pyStrip node = "" then mPure "❌ Error: Node name is required"
    else
      tryAll
        (do
          get_proxmox_client env
          let qemu_vms ← fromExcept (.qemuListGet node) env.qemuList
          let lxc_cts ← fromExcept (.lxcListGet node) env.lxcList
          if qemu_vms.isEmpty && lxc_cts.isEmpty then
            mPure ("⚠️ No VMs or Containers found on node " ++ q node ++ ".")
          else
            mPure (pyJoin "\n"
              (("📊 VMs on node " ++ q node ++ ":") ::
                (qemu_vms.map (vmLine "VM") ++ lxc_cts.map (vmLine "LXC")))))
        (fun e => mPure ("❌ Error: " ++ e.msg)))

/-- One snapshot line of the `list` action of `proxmox_manage_snapshot`. -/
def snapLine (snap : SnapInfo) : String :=
  let falsyName := snap.name = none ∨ snap.name = some ""
  let snap_name :=
    if falsyName ∧ snap.description = some "You are here!" then "(Current State)"
    else pyShowOptStr snap.name
  let ts := snap.snaptime.getD (snap.timeField.getD "Unknown")
  let desc := snap.description.getD "No description"
  "- " ++ snap_name ++ ": " ++ desc ++ " (Time: " ++ ts ++ ")"

/-- The invalid-arguments message of `proxmox_manage_snapshot`. -/
def snapArgsMsg : String :=
  "❌ Error: Node, VMID, and action (" ++ q "create" ++ ", " ++ q "list" ++ ", " ++
    q "rollback" ++ ", or " ++ q "delete" ++ ") are required."

/-- `proxmox_manage_snapshot(node, vmid, action, name, description)`. -/
def proxmox_manage_snapshot (env : PxEnv) (node vmid action name description : String) : M String :=
  log_activity "proxmox_manage_snapshot" (
    if pyStrip node = "" ∨ pyStrip vmid = "" ∨
        action ∉ (["create", "list", "rollback", "delete"] : List String) then
      mPure snapArgsMsg
    else
      tryAll
        (do
          get_proxmox_client env
          if action = "create" then
            if pyStrip name = "" then
              mPure "❌ Error: Snapshot name is required for create action."
            else do
              _ ← fromExcept (.snapshotPost node vmid name description) env.snapshotCreateRes
              mPure ("📸 Snapshot " ++ q name ++ " created for VM " ++ vmid ++ ".")
          else if action = "list" then do
            let snapshots ← fromExcept (.snapshotListGet node vmid) env.snapshotListRes
            if snapshots.isEmpty then
              mPure ("No snapshots found for VM " ++ vmid ++ ".")
            else
              mPure (pyJoin "\n"
                (("📸 Snapshots for VM " ++ vmid ++ ":") :: snapshots.map snapLine))
          else if action = "rollback" then
            if pyStrip name = "" then
              mPure "❌ Error: Snapshot name is required for rollback action."
            else do
              _ ← fromExcept (.snapshotRollbackPost node vmid name) env.snapshotRollbackRes
              mPure ("↩️ VM " ++ vmid ++ " rollback to snapshot " ++ q name ++ " initiated.")
          else
            if pyStrip name = "" then
              mPure "❌ Error: Snapshot name is required for delete action."
            else do
              _ ← fromExcept (.snapshotDeleteReq node vmid name) env.snapshotDeleteRes
              mPure ("🗑️ Snapshot " ++ q name ++ " deleted for VM " ++ vmid ++ "."))
        (fun e => mPure ("❌ Error managing snapshot (" ++ action ++ "): " ++ e.msg)))

/-- The disk-key scan order of `proxmox_create_vm_from_template`:
`scsi0..5, virtio0..5, sata0..5, ide0..5`, first key present wins. -/
def diskKeys : List String :=
  (["scsi", "virtio", "sata", "ide"].map
    (fun bus => (List.range 6).map (fun i => bus ++ Nat.repr i))).flatten

/-- The `config_updates` dictionary of `proxmox_create_vm_from_template`,
in insertion order; `cipassword` is always present. -/
def vmConfigUpdates (cores memory : Int) (cipassword : String)
    (ipconfig0 : Option String) : List (String × String) :=
  (if cores > 0 then [("cores", toString cores)] else []) ++
  (if memory > 0 then [("memory", toString memory)] else []) ++
  [("cipassword", cipassword)] ++
  (match ipconfig0 with
   | some v => [("ipconfig0", v)]
   | none => [])

/-- The `ipconfig0` computation of `proxmox_create_vm_from_template`: a bare
address gets `/24` appended, the gateway is the `.1` address of the first
three dot-separated parts; an address with fewer than three dots raises
`IndexError` (caught by the surrounding `except`).  Also returns the
possibly rebound `ip` used in the final message. -/
def vmIpConfig (ip : String) : Except Exc (Option String × String) :=
  if ¬ pyTruthy ip then .ok (none, ip)
  else
    let ip2 := if ¬ strContains ip "/" then ip ++ "/24" else ip
    let parts := ip2.split (· = '.')
    match parts.get? 0, parts.get? 1, parts.get? 2 with
    | some p0, some p1, some p2 =>
      .ok (some ("ip=" ++ ip2 ++ ",gw=" ++ p0 ++ "." ++ p1 ++ "." ++ p2 ++ ".1"), ip2)
    | _, _, _ => .error ⟨false, "list index out of range"⟩

/-- The final success message of `proxmox_create_vm_from_template`. -/
def createSuccessMsg (vmid name template_id node : String) (cores memory : Int)
    (resize_msg ipShown pass_msg : String) : String :=
  "✅ VM " ++ vmid ++ " (" ++ q name ++ ") created from template " ++ template_id ++
    " on " ++ node ++ ".\nSpecs: " ++
    (if cores ≠ 0 then toString cores else "Default") ++ " Cores, " ++
    (if memory ≠ 0 then toString memory else "Default") ++ "MB RAM" ++ resize_msg ++
    ".\nIP: " ++ (if pyTruthy ipShown then ipShown else "Default") ++ ".\n" ++ pass_msg

/-- The disk-resize step of `proxmox_create_vm_from_template`: its own
`try/except` turns any failure into a `resize_msg` reporting the failure,
and the handler then continues to the final success message. -/
def vmResizeBlock (env : PxEnv) (node vmid disk_size : String) : M String :=
  if pyTruthy disk_size then do
    emit (.configGet node vmid)
    match env.configGetRes with
    | .error disk_e => mPure (" (Disk resize failed: " ++ disk_e.msg ++ ")")
    | .ok vm_config_keys =>
      match diskKeys.find? (fun d => vm_config_keys.contains d) with
      | some target_disk => do
        emit (.resizePut node vmid target_disk disk_size)
        match env.resizeRes with
        | .ok _ => mPure (", Disk: " ++ disk_size)
        | .error disk_e => mPure (" (Disk resize failed: " ++ disk_e.msg ++ ")")
      | none => mPure " (Disk resize skipped - no disk found)"
  else mPure ""

/-- The password-generation message artifact shared by
`proxmox_create_vm_from_template` and `proxmox_create_lxc`. -/
def passMsgOf (passwordArg pw : String) : String :=
  if ¬ pyTruthy passwordArg then "🔑 **Generated Password**: `" ++ pw ++ "`"
  else "🔑 **Password**: (Set by user)"

/-- `proxmox_create_vm_from_template`.  When the caller supplies an empty
password one is generated by `generate_secure_password` (before the `try`
block); a `none` from the fuel-bounded model of that loop is a model
artifact for the never-returning case and surfaces as an exception. -/
def proxmox_create_vm_from_template (env : PxEnv)
    (node vmid template_id name ip : String) (cores memory : Int)
    (disk_size password : String) : M String :=
  log_activity "proxmox_create_vm_from_template" (
    if pyStrip node = "" ∨ pyStrip template_id = "" ∨ pyStrip name = "" then
      mPure "❌ Error: Node, template ID, and Name are required"
    else
      match (if ¬ pyTruthy password then
               generate_secure_password env.rand env.passwordFuel
                 generate_secure_password_default_length
             else some password.toList) with
      | none =>
        throwExc ⟨false, "generate_secure_password did not terminate within the modelling fuel"⟩
      | some pwChars =>
        let pw := String.mk pwChars
        let pass_msg := passMsgOf password pw
        tryAll
          (do
            get_proxmox_client env
            let vmid ←
              if ¬ pyTruthy vmid then do
                let rs ← fromExcept .clusterResourcesGet env.clusterResources
                mPure (get_next_vmid rs)
              else mPure vmid
            _ ← fromExcept (.clonePost node template_id vmid name) env.cloneRes
            let pair ← liftExcept (vmIpConfig ip)
            let config_updates := vmConfigUpdates cores memory pw pair.1
            -- `config_updates` always holds at least `cipassword`, so the
            -- `if config_updates:` guard of the source is always taken
            emit (.configPost node vmid config_updates)
            match env.configPostRes with
            | .error config_e =>
              mPure ("⚠️ VM " ++ vmid ++ " created but configuration failed: " ++
                config_e.msg ++ "\n" ++ pass_msg)
            | .ok _ => do
              let resize_msg ← vmResizeBlock env node vmid disk_size
              mPure (createSuccessMsg vmid name template_id node cores memory
                resize_msg pair.2 pass_msg))
          (fun e => mPure ("❌ Error cloning VM: " ++ e.msg)))

/-- `proxmox_create_lxc`; shares the empty-password generation path with
`proxmox_create_vm_from_template`. -/
def proxmox_create_lxc (env : PxEnv)
    (node vmid hostname password ostemplate : String) (cores memory : Int)
    (storage disk_size net0 : String) : M String :=
  log_activity "proxmox_create_lxc" (
    if pyStrip node = "" ∨ pyStrip hostname = "" ∨ pyStrip ostemplate = "" then
      mPure "❌ Error: Node, Hostname, and OS Template are required."
    else
      match (if ¬ pyTruthy password then
               generate_secure_password env.rand env.passwordFuel
                 generate_secure_password_default_length
             else some password.toList) with
      | none =>
        throwExc ⟨false, "generate_secure_password did not terminate within the modelling fuel"⟩
      | some pwChars =>
        let pw := String.mk pwChars
        let pass_msg := passMsgOf password pw
        tryAll
          (do
            get_proxmox_client env
            let vmid ←
              if ¬ pyTruthy vmid then do
                let rs ← fromExcept .clusterResourcesGet env.clusterResources
                mPure (get_next_vmid rs)
              else mPure vmid
            _ ← fromExcept (.lxcCreatePost node vmid hostname pw ostemplate) env.lxcCreateRes
            mPure ("✅ LXC " ++ vmid ++ " (" ++ q hostname ++ ") created.\n" ++ pass_msg))
          (fun e => mPure ("❌ Error creating LXC: " ++ e.msg)))

/-- The `for _ in range(cap)` guest-agent polling loop shared by
`proxmox_execute_command` (cap 30) and `proxmox_install_software` (cap 60):
query `exec-status`; return the status once it reports `exited == 1`,
otherwise `time.sleep(2)` and poll again; `none` after the cap is the
timeout case.  `idx` numbers the polls so the oracle can give each poll its
own answer. -/
def agentPollLoop (env : PxEnv) (node vmid : String) (pid : Nat) (idx : Nat) :
    Nat → M (Option AgentStatus)
  | 0 => mPure none
  | fuel + 1 => do
    let status ← fromExcept (.agentExecStatusGet node vmid pid) (env.agentExecStatus pid idx)
    if status.exited = some 1 then mPure (some status)
    else do
      emit (.sleepSec 2)
      agentPollLoop env node vmid pid (idx + 1) fuel

/-- The guest-agent phase of `proxmox_execute_command` (the body of its
`try` block): agent info probe, exec post, falsy-pid check (raising
`ResourceException`), then the 30-poll loop. -/
def executeCommandAgentPhase (env : PxEnv) (node vmid command : String) : M String := do
  _ ← fromExcept (.agentInfoGet node vmid) env.agentInfoRes
  let res ← fromExcept (.agentExecPost node vmid ["/bin/bash", "-c", command]) env.agentExecRes
  let pid := res.getD 0
  -- `if not pid:` — a missing or zero pid is falsy
  if pid = 0 then
    throwExc ⟨true, "Failed to start execution (No PID returned)."⟩
  else do
    let outcome ← agentPollLoop env node vmid pid 0 30
    match outcome with
    | some status =>
      if status.exitcode = some 0 then
        mPure ("✅ Agent command executed successfully.\nOutput: " ++ status.outData.getD "")
      else
        mPure ("❌ Agent command failed (Exit Code " ++ pyShowOptInt status.exitcode ++
          ").\nError: " ++ status.errData.getD "" ++ "\nOutput: " ++ status.outData.getD "")
    | none =>
      mPure ("⏳ Agent command started (PID " ++ Nat.repr pid ++ "), but timed out.")

/-- The fixed message returned when the SSH fallback is entered without the
needed credentials (it lists the whole set of required credential
arguments). -/
def missingSshCredsMsg (vmid : String) : String :=
  "❌ QEMU Guest Agent not available on VM " ++ vmid ++ ".\n⚠️ To use SSH fallback, provide: " ++
    q "ip_address" ++ ", " ++ q "ssh_user" ++ ", and either " ++ q "ssh_password" ++
    " or " ++ q "ssh_private_key" ++ "."

/-- `all([ip_address, ssh_user]) and (ssh_password or ssh_private_key)`. -/
def sshCredsComplete (ip_address ssh_user ssh_password ssh_private_key : String) : Bool :=
  pyTruthy ip_address && pyTruthy ssh_user &&
    (pyTruthy ssh_password || pyTruthy ssh_private_key)

/-- The `except ResourceException` handler of `proxmox_execute_command`:
credential check, then a single SSH session via `_execute_ssh_command`
(which catches its own exceptions and returns a triple). -/
def executeCommandFallback (env : PxEnv)
    (vmid ip_address ssh_user ssh_password ssh_private_key : String)
    (ssh_port : Int) (command : String) : M String :=
  if ¬ sshCredsComplete ip_address ssh_user ssh_password ssh_private_key then
    mPure (missingSshCredsMsg vmid)
  else do
    emit (.sshExec ip_address ssh_port ssh_user command)
    let v := env.sshExecRes
    if v.1 = 0 then
      mPure ("✅ Command executed successfully via SSH.\nOutput: " ++ v.2.1)
    else
      mPure ("❌ SSH command failed (Exit Code " ++ toString v.1 ++ ").\nError: " ++
        v.2.2 ++ "\nOutput: " ++ v.2.1)

/-- `proxmox_execute_command`.  Note that `get_proxmox_client` runs before
the `try` block, and only `ResourceException` reaches the SSH fallback. -/
def proxmox_execute_command (env : PxEnv)
    (node vmid command ip_address ssh_user ssh_password ssh_private_key : String)
    (ssh_port : Int) : M String :=
  log_activity "proxmox_execute_command" (
    if ¬ (pyTruthy node && pyTruthy vmid && pyTruthy command) then
      mPure "❌ Error: Node, VMID, and command are required."
    else do
      get_proxmox_client env
      tryResource (executeCommandAgentPhase env node vmid command)
        (fun _ =>
          executeCommandFallback env vmid ip_address ssh_user ssh_password
            ssh_private_key ssh_port command))

/-- The in-guest install command built by `proxmox_install_software` for the
guest-agent path. -/
def installCommandAgent (software : String) : String :=
  "sh -c " ++ sq ++ "if command -v apt-get >/dev/null; then apt-get update && apt-get install -y " ++
    software ++ "; elif command -v yum >/dev/null; then yum install -y " ++ software ++
    "; elif command -v dnf >/dev/null; then dnf install -y " ++ software ++
    "; else echo \"Unsupported package manager.\" >&2; exit 1; fi" ++ sq

/-- The install command built by `proxmox_install_software` for the SSH
fallback path (sudo variants, no `sh -c` wrapper). -/
def installCommandSsh (software : String) : String :=
  "if command -v apt-get >/dev/null; then sudo apt-get update && sudo apt-get install -y " ++
    software ++ "; elif command -v yum >/dev/null; then sudo yum install -y " ++ software ++
    "; elif command -v dnf >/dev/null; then sudo dnf install -y " ++ software ++
    "; else echo \"Unsupported package manager.\" >&2; exit 1; fi"

/-- The guest-agent phase of `proxmox_install_software`: same shape as
`executeCommandAgentPhase` but with the install command and a 60-poll
(2-minute) loop. -/
def installSoftwareAgentPhase (env : PxEnv) (node vmid software : String) : M String := do
  _ ← fromExcept (.agentInfoGet node vmid) env.agentInfoRes
  let res ← fromExcept
    (.agentExecPost node vmid ["/bin/bash", "-c", installCommandAgent software])
    env.agentExecRes
  let pid := res.getD 0
  if pid = 0 then
    throwExc ⟨true, "Failed to start execution (No PID returned)."⟩
  else do
    let outcome ← agentPollLoop env node vmid pid 0 60
    match outcome with
    | some status =>
      if status.exitcode = some 0 then
        mPure ("✅ " ++ q software ++ " installed successfully via Guest Agent!\nOutput: " ++
          status.outData.getD "")
      else
        mPure ("❌ Agent command failed (Exit Code " ++ pyShowOptInt status.exitcode ++
          ").\nError: " ++ status.errData.getD "" ++ "\nOutput: " ++ status.outData.getD "")
    | none =>
      mPure ("⏳ Agent command for " ++ q software ++ " started (PID " ++ Nat.repr pid ++
        "), but timed out. Check VM manually.")

/-- The `except ResourceException` handler of `proxmox_install_software`. -/
def installSoftwareFallback (env : PxEnv)
    (vmid ip_address ssh_user ssh_password ssh_private_key : String)
    (ssh_port : Int) (software : String) : M String :=
  if ¬ sshCredsComplete ip_address ssh_user ssh_password ssh_private_key then
    mPure (missingSshCredsMsg vmid)
  else do
    emit (.sshExec ip_address ssh_port ssh_user (installCommandSsh software))
    let v := env.sshExecRes
    if v.1 = 0 then
      mPure ("✅ " ++ q software ++ " installed successfully via SSH!\nOutput: " ++ v.2.1)
    else
      mPure ("❌ SSH command failed (Exit Code " ++ toString v.1 ++ ").\nError: " ++
        v.2.2 ++ "\nOutput: " ++ v.2.1)

/-- `proxmox_install_software`. -/
def proxmox_install_software (env : PxEnv)
    (node vmid software ip_address ssh_user ssh_password ssh_private_key : String)
    (ssh_port : Int) : M String :=
  log_activity "proxmox_install_software" (
    if ¬ (pyTruthy node && pyTruthy vmid && pyTruthy software) then
      mPure "❌ Error: Node, VMID, and software name are required."
    else do
      get_proxmox_client env
      tryResource (installSoftwareAgentPhase env node vmid software)
        (fun _ =>
          installSoftwareFallback env vmid ip_address ssh_user ssh_password
            ssh_private_key ssh_port software))

/-- The `"=" * 50` separator of `proxmox_get_server_specs`. -/
def specSep : String := String.mk (List.replicate 50 (Char.ofNat 61))

/-- `proxmox_get_server_specs` — the one Proxmox tool not wrapped by
`log_activity`; its own `try/except` covers everything after the node
check. -/
def proxmox_get_server_specs (env : PxEnv) (node : String) : M String :=
  if pyStrip node = "" then mPure "Error: Node name is required."
  else
    tryAll
      (do
        get_proxmox_client env
        let version ← fromExcept .versionGet env.versionRes
        let ver := version.version.getD "Unknown"
        let node_status ← fromExcept (.nodeStatusGet node) env.nodeStatusRes
        let cpu_model := node_status.cpuModel.getD "Unknown"
        let cpu_cores := node_status.cpuCores.getD 0
        -- int(x/1024/1024/1024): float division then truncation; on the byte
        -- counts involved this is floor division by 2^30
        let memory_total := node_status.memTotal.getD 0 / (1024 * 1024 * 1024)
        let memory_used := node_status.memUsed.getD 0 / (1024 * 1024 * 1024)
        mPure ("SERVER SPECIFICATIONS - Node: " ++ node ++ "\n" ++ specSep ++ "\n" ++
          "Proxmox Version: " ++ ver ++ "\n\n" ++
          "CPU Information:\n" ++
          "- Model: " ++ cpu_model ++ "\n" ++
          "- Cores: " ++ Nat.repr cpu_cores ++ "\n\n" ++
          "Memory (RAM):\n" ++
          "- Total: " ++ Nat.repr memory_total ++ " GB\n" ++
          "- Used: " ++ Nat.repr memory_used ++ " GB\n\n" ++ specSep))
      (fun e => mPure ("Error getting server specifications: " ++ e.msg))

/-! ## Trace observations -/

/-- Is a call an SSH session? -/
def isSshCall : Call → Bool
  | .sshExec _ _ _ _ => true
  | _ => false

/-- Is a call an `exec-status` poll? -/
def isStatusCall : Call → Bool
  | .agentExecStatusGet _ _ _ => true
  | _ => false

/-- Number of `exec-status` polls in a trace. -/
def countStatusCalls (t : List Call) : Nat := t.countP isStatusCall

/-- The call kinds the guest-agent path may attempt: authentication, the
agent probe, the exec post, status polls and the 2-second sleeps — in
particular nothing that cancels the remote command and no SSH session. -/
def isAgentPathCall : Call → Bool
  | .auth => true
  | .agentInfoGet _ _ => true
  | .agentExecPost _ _ _ => true
  | .agentExecStatusGet _ _ _ => true
  | .sleepSec _ => true
  | _ => false

/-! ## Document server: markdown helpers -/

/-- The `*` character of the markdown patterns. -/
def starChar : Char := Char.ofNat 42

/-- The length of the leftmost `re` match of `\*\*.*?\*\*|\*.*?\*` starting
at the head of `rest` (which begins with a star): the bold alternative is
tried first; its lazy body stops at the earliest closing `**`; if it has
no closing `**` the single-star alternative matches (possibly with an
empty body). -/
def mdMatchLen (rest : List Char) : Option Nat :=
  let singleLen : Option Nat :=
    match findSubAux [starChar] (rest.drop 1) 0 with
    | some r => some (r + 2)
    | none => none
  if listStartsWith [starChar, starChar] rest then
    match findSubAux [starChar, starChar] (rest.drop 2) 0 with
    | some k => some (k + 4)
    | none => singleLen
  else singleLen

/-- `re.split` with the capturing pattern `(\*\*.*?\*\*|\*.*?\*)`: the
unmatched segments alternate with the (kept) matches.  The fuel is the
length of the line; every match consumes at least two characters. -/
def mdSplitAux (hay : List Char) : Nat → List (List Char)
  | 0 => [hay]
  | fuel + 1 =>
    match hay.findIdx? (· = starChar) with
    | none => [hay]
    | some p =>
      let pre := hay.take p
      let rest := hay.drop p
      match mdMatchLen rest with
      | none => [hay]
      | some m => pre :: rest.take m :: mdSplitAux (rest.drop m) fuel

/-- Python `s[a:-b]` for non-negative `a`, `b`. -/
def pySlice (s : String) (a b : Nat) : String :=
  String.mk ((s.toList.drop a).take (s.toList.length - a - b))

/-- The run built from one `re.split` part: `**…**` becomes a bold run,
`*…*` an italic run, anything else a plain run. -/
def mdRunOf (part : String) : DocRun :=
  if strStarts part "**" ∧ part.endsWith "**" then ⟨pySlice part 2 2, true, false, none⟩
  else if strStarts part "*" ∧ part.endsWith "*" then ⟨pySlice part 1 1, false, true, none⟩
  else ⟨part, false, false, none⟩

/-- `parse_markdown_to_runs(para, content)`: for each line of `content`,
blank lines append a newline run; other lines append one run per
`re.split` part (including the empty parts the split produces) followed by
a newline run. -/
def parse_markdown_to_runs (para : Para) (content : String) : Para :=
  (content.split (· = '\n')).foldl
    (fun para line =>
      if pyStrip line = "" then
        { para with runs := para.runs ++ [⟨"\n", false, false, none⟩] }
      else
        let parts := (mdSplitAux line.toList line.toList.length).map (fun l => String.mk l)
        let para := parts.foldl
          (fun para part => { para with runs := para.runs ++ [mdRunOf part] }) para
        { para with runs := para.runs ++ [⟨"\n", false, false, none⟩] })
    para

/-- A header cell of `parse_markdown_table`: text set, runs made bold, the
paragraph centered. -/
def mdHeaderCell (h : String) : DocCell :=
  ⟨[⟨[⟨h, true, false, none⟩], ParaAlign.center⟩]⟩

/-- A data row of `parse_markdown_table`: the table has as many columns as
the header; cells with data are left-aligned, surplus columns keep their
fresh empty paragraph, surplus data is dropped by the `i < len(row_cells)`
guard. -/
def mdDataRow (ncols : Nat) (row_data : List String) : List DocCell :=
  (List.range ncols).map (fun i =>
    match row_data.get? i with
    | some c => ⟨[⟨[⟨c, false, false, none⟩], ParaAlign.left⟩]⟩
    | none => ⟨[⟨[], ParaAlign.default⟩]⟩)

/-- `parse_markdown_table`: split the markdown text into lines; line 0 is
the header, line 1 the separator; remaining non-blank lines that do not
start with `|---` are data rows.  Returns `none` when there are fewer than
two lines (the source returns without adding a table). -/
def parse_markdown_table_build (table_md : String) : Option DocTable :=
  let lines := (pyStrip table_md).split (· = '\n')
  if lines.length < 2 then none
  else
    let headers := (((lines.headD "").split (· = '|')).drop 1).dropLast.map pyStrip
    let data_rows :=
      ((lines.drop 2).filter (fun l => pyStrip l ≠ "" ∧ ¬ strStarts l "|---")).map
        (fun l => (((l.split (· = '|')).drop 1).dropLast).map pyStrip)
    some ⟨"Table Grid", true,
      (headers.map mdHeaderCell) :: data_rows.map (mdDataRow headers.length)⟩

/-- The tables a `{findings}` substitution adds to the document. -/
def tablesFromFindings (value : String) : List DocTable :=
  match parse_markdown_table_build value with
  | none => []
  | some t => [t]

/-! ## Document server: placeholder substitution -/

/-- Keys beginning with this prefix are image placeholders
(`key.startswith` of the brace-image prefix). -/
def imageKeyStart : String := "\x7bimage"

/-- The markdown-table placeholder key. -/
def findingsKey : String := "\x7bfindings\x7d"

/-- Target selection of the substitution: the key as written first, then
the bracket-delimited form `[key]`; `none` means this key is skipped for
this paragraph (`continue`). -/
def placeholderTarget (text key : String) : Option String :=
  if strContains text key then some key
  else if strContains text ("[" ++ key ++ "]") then some ("[" ++ key ++ "]")
  else none

/-- Fold state for one body paragraph: the paragraphs already emitted before
the current one (multi-part text values insert paragraphs and re-point the
loop variable at the last one), the current paragraph, and the tables
added by `{findings}` values. -/
structure ParaFoldState where
  done : List Para
  cur : Para
  newTables : List DocTable

/-- One `(key, value)` step of the body-paragraph loop of
`replace_placeholders_in_doc`. -/
def bodyParaStep (fileExists : String → Bool) (st : ParaFoldState)
    (kv : String × String) : ParaFoldState :=
  let key := kv.1
  let value := kv.2
  let text := paraText st.cur
  match placeholderTarget text key with
  | none => st
  | some target =>
    if strStarts key imageKeyStart then
      if fileExists value then
        { st with cur := ⟨[⟨"", false, false, some value⟩], ParaAlign.center⟩ }
      else
        { st with cur := (setParaText st.cur
            (strReplace text target ("[Image not found: " ++ value ++ "]"))) }
    else if key = findingsKey ∧ strContains value "|" then
      { st with cur := { st.cur with runs := [] },
                newTables := st.newTables ++ tablesFromFindings value }
    else
      let parts := value.splitOn "\n\n"
      let p0 := parts.headD ""
      let first :=
        let c := setParaText st.cur p0
        let c := if strContains p0 "**" ∨ strContains p0 "*" then parse_markdown_to_runs c p0 else c
        { c with align := ParaAlign.left }
      match parts with
      | [] => st
      | [_] => { st with cur := first }
      | _ :: restParts =>
        let step := restParts.foldl
          (fun (acc : List Para × Para) part =>
            let c : Para := ⟨[⟨part, false, false, none⟩], ParaAlign.default⟩
            let c := if strContains part "**" ∨ strContains part "*" then parse_markdown_to_runs c part else c
            let c := { c with align := ParaAlign.left }
            (acc.1 ++ [acc.2], c))
          ([], first)
        { st with done := st.done ++ step.1, cur := step.2 }

/-- One `(key, value)` step of the table-cell loop: same branches, but the
multi-part text case only sets `parts[0]` and no paragraph is inserted;
`{findings}` tables are passed `insert_after` (their position inside the
body is not represented, only their addition to the document). -/
def cellParaStep (fileExists : String → Bool) (st : Para × List DocTable)
    (kv : String × String) : Para × List DocTable :=
  let key := kv.1
  let value := kv.2
  let text := paraText st.1
  match placeholderTarget text key with
  | none => st
  | some target =>
    if strStarts key imageKeyStart then
      if fileExists value then (⟨[⟨"", false, false, some value⟩], ParaAlign.center⟩, st.2)
      else (setParaText st.1 (strReplace text target ("[Image not found: " ++ value ++ "]")), st.2)
    else if key = findingsKey ∧ strContains value "|" then
      ({ st.1 with runs := [] }, st.2 ++ tablesFromFindings value)
    else
      -- the single- and multi-part branches of the source are identical
      -- here: both set only `parts[0]`
      let parts := value.splitOn "\n\n"
      let p0 := parts.headD ""
      let c := setParaText st.1 p0
      let c := if strContains p0 "**" ∨ strContains p0 "*" then parse_markdown_to_runs c p0 else c
      ({ c with align := ParaAlign.left }, st.2)

/-- Process one body paragraph against every placeholder, in dict insertion
order. -/
def replaceInBodyPara (fileExists : String → Bool)
    (placeholders : List (String × String)) (p : Para) : List Para × List DocTable :=
  let st := placeholders.foldl (bodyParaStep fileExists) ⟨[], p, []⟩
  (st.done ++ [st.cur], st.newTables)

/-- Process one table-cell paragraph against every placeholder. -/
def replaceInCellPara (fileExists : String → Bool)
    (placeholders : List (String × String)) (p : Para) : Para × List DocTable :=
  placeholders.foldl (cellParaStep fileExists) (p, [])

/-- Process one table cell. -/
def replaceInCell (fileExists : String → Bool)
    (placeholders : List (String × String)) (c : DocCell) : DocCell × List DocTable :=
  let r := c.paras.foldl
    (fun (acc : List Para × List DocTable) p =>
      (acc.1 ++ [(replaceInCellPara fileExists placeholders p).1],
       acc.2 ++ (replaceInCellPara fileExists placeholders p).2)) ([], [])
  (⟨r.1⟩, r.2)

/-- Process one table. -/
def replaceInRow (fileExists : String → Bool)
    (placeholders : List (String × String)) (row : List DocCell) :
    List DocCell × List DocTable :=
  row.foldl
    (fun (acc2 : List DocCell × List DocTable) c =>
      (acc2.1 ++ [(replaceInCell fileExists placeholders c).1],
       acc2.2 ++ (replaceInCell fileExists placeholders c).2)) ([], [])

def replaceInTable (fileExists : String → Bool)
    (placeholders : List (String × String)) (t : DocTable) : DocTable × List DocTable :=
  let r := t.rows.foldl
    (fun (acc : List (List DocCell) × List DocTable) row =>
      (acc.1 ++ [(replaceInRow fileExists placeholders row).1],
       acc.2 ++ (replaceInRow fileExists placeholders row).2)) ([], [])
  ({ t with rows := r.1 }, r.2)

/-- `replace_placeholders_in_doc(doc, placeholders)`: the body-paragraph
pass first (over the snapshot of the document's paragraphs), then the
table pass; `doc.tables` is re-read for the second pass, so tables that
`{findings}` values added during the first pass are scanned too. -/
def replace_placeholders_in_doc (fileExists : String → Bool) (doc : WordDoc)
    (placeholders : List (String × String)) : WordDoc :=
  let body := doc.paras.foldl
    (fun (acc : List Para × List DocTable) p =>
      (acc.1 ++ (replaceInBodyPara fileExists placeholders p).1,
       acc.2 ++ (replaceInBodyPara fileExists placeholders p).2)) ([], [])
  let allTables := doc.tables ++ body.2
  let tbl := allTables.foldl
    (fun (acc : List DocTable × List DocTable) t =>
      (acc.1 ++ [(replaceInTable fileExists placeholders t).1],
       acc.2 ++ (replaceInTable fileExists placeholders t).2)) ([], [])
  ⟨body.1, tbl.1 ++ tbl.2⟩

/-- The texts of every paragraph and every table-cell paragraph of a
document. -/
def docTexts (doc : WordDoc) : List String :=
  doc.paras.map paraText ++
    (doc.tables.map (fun t =>
      (t.rows.map (fun row =>
        (row.map (fun c => c.paras.map paraText)).flatten)).flatten)).flatten

/-- Is `key` absent from `text`, both as written and bracket-delimited? -/
def keyAbsent (text key : String) : Bool :=
  !strContains text key && !strContains text ("[" ++ key ++ "]")

/-- No paragraph or table-cell text of the document contains any
placeholder key, plain or bracket-delimited. -/
def noPlaceholderInDoc (doc : WordDoc) (placeholders : List (String × String)) : Bool :=
  (docTexts doc).all (fun t => placeholders.all (fun kv => keyAbsent t kv.1))

/-! ## Document server: JSON parsing (`json.loads`) -/

/-- The double-quote character. -/
def quoteChar : Char := Char.ofNat 34

/-- The backslash character. -/
def backslashChar : Char := Char.ofNat 92

/-- The opening-brace character. -/
def lbraceChar : Char := Char.ofNat 123

/-- The closing-brace character. -/
def rbraceChar : Char := Char.ofNat 125

/-- JSON insignificant whitespace. -/
def jsonWs (c : Char) : Bool :=
  c = ' ' || c = '\t' || c = '\n' || c = Char.ofNat 13

/-- Drop leading JSON whitespace. -/
def skipWs (cs : List Char) : List Char := cs.dropWhile jsonWs

/-- Parse a JSON string body after the opening quote.  Escape sequences are
not modelled (`none`); no input this development evaluates contains any. -/
def parseJsonString : List Char → Option (String × List Char)
  | [] => none
  | c :: rest =>
    if c = quoteChar then some ("", rest)
    else if c = backslashChar then none
    else
      match parseJsonString rest with
      | some (s, r) => some (String.singleton c ++ s, r)
      | none => none

/-- Parse a JSON integer (fractions and exponents are not modelled; no
input this development evaluates contains any). -/
def parseJsonNumber (cs : List Char) : Option (Int × List Char) :=
  let neg := listStartsWith ['-'] cs
  let cs2 := if neg then cs.drop 1 else cs
  let digits := cs2.takeWhile (fun c => 48 ≤ c.toNat && c.toNat ≤ 57)
  if digits.isEmpty then none
  else
    let n : Nat := digits.foldl (fun acc c => acc * 10 + (c.toNat - 48)) 0
    some (if neg then -(n : Int) else (n : Int), cs2.drop digits.length)

mutual

/-- Parse one JSON value. -/
def parseJson (fuel : Nat) (cs : List Char) : Option (JsonVal × List Char) :=
  match fuel with
  | 0 => none
  | fuel + 1 =>
    match skipWs cs with
    | [] => none
    | c :: rest =>
      if c = quoteChar then
        match parseJsonString rest with
        | some (s, r) => some (.str s, r)
        | none => none
      else if c = '[' then
        match skipWs rest with
        | ']' :: r => some (.arr [], r)
        | _ => parseJsonArrayItems fuel rest []
      else if c = lbraceChar then
        let r := skipWs rest
        if listStartsWith [rbraceChar] r then some (.obj [], r.drop 1)
        else parseJsonObjItems fuel rest []
      else if listStartsWith ['t', 'r', 'u', 'e'] (c :: rest) then
        some (.bool true, (c :: rest).drop 4)
      else if listStartsWith ['f', 'a', 'l', 's', 'e'] (c :: rest) then
        some (.bool false, (c :: rest).drop 5)
      else if listStartsWith ['n', 'u', 'l', 'l'] (c :: rest) then
        some (.null, (c :: rest).drop 4)
      else
        match parseJsonNumber (c :: rest) with
        | some (n, r) => some (.num n, r)
        | none => none

/-- Parse the comma-separated items of a JSON array (after `[`). -/
def parseJsonArrayItems (fuel : Nat) (cs : List Char) (acc : List JsonVal) :
    Option (JsonVal × List Char) :=
  match fuel with
  | 0 => none
  | fuel + 1 =>
    match parseJson fuel cs with
    | none => none
    | some (v, r) =>
      match skipWs r with
      | ',' :: r2 => parseJsonArrayItems fuel r2 (acc ++ [v])
      | ']' :: r2 => some (.arr (acc ++ [v]), r2)
      | _ => none

/-- Parse the comma-separated members of a JSON object (after the opening
brace). -/
def parseJsonObjItems (fuel : Nat) (cs : List Char) (acc : List (String × JsonVal)) :
    Option (JsonVal × List Char) :=
  match fuel with
  | 0 => none
  | fuel + 1 =>
    match skipWs cs with
    | c :: r =>
      if c = quoteChar then
        match parseJsonString r with
        | none => none
        | some (k, r2) =>
          match skipWs r2 with
          | ':' :: r3 =>
            match parseJson fuel r3 with
            | none => none
            | some (v, r4) =>
              match skipWs r4 with
              | ',' :: r5 => parseJsonObjItems fuel r5 (acc ++ [(k, v)])
              | r5 =>
                if listStartsWith [rbraceChar] r5 then some (.obj (acc ++ [(k, v)]), r5.drop 1)
                else none
          | _ => none
      else none
    | [] => none

end

/-- `json.loads` on the subset of JSON the repository's inputs use. -/
def json_loads (s : String) : Option JsonVal :=
  match parseJson (4 * (s.length + 1)) s.toList with
  | some (v, rest) => if skipWs rest = [] then some v else none
  | none => none

/-- Python truthiness of a parsed JSON value. -/
def jsonTruthy : JsonVal → Bool
  | .str s => s ≠ ""
  | .num n => n ≠ 0
  | .bool b => b
  | .null => false
  | .arr xs => !xs.isEmpty
  | .obj fs => !fs.isEmpty

/-- `str(value)` for a placeholder-dict value.  Every caller in the
repository passes string values; the scalar cases follow Python's `str`. -/
def jsonToPyStr : JsonVal → String
  | .str s => s
  | .num n => toString n
  | .bool true => "True"
  | .bool false => "False"
  | .null => "None"
  | .arr _ => "[...]"
  | .obj _ => "\x7b...\x7d"

/-! ## Document server: tool handlers -/

/-- The external world of the document server: the filesystem (template
existence, template contents) and the save operations (which may raise,
e.g. on an unwritable path). -/
structure DocEnv where
  fileExists : String → Bool
  loadWordDoc : String → Except Exc WordDoc
  loadWorkbookRows : String → Except Exc (List (List JsonVal))
  saveWorkbookRes : Except Exc Unit
  saveDocRes : Except Exc Unit

/-- `document_generate_excel(data, template, output_name)`: the active
worksheet of the saved workbook is the template's rows (none without a
template) followed by one appended row per item of the parsed JSON array
(non-list items are wrapped in a singleton row). -/
def document_generate_excel (env : DocEnv) (data template output_name : String) : M String :=
  if pyStrip data = "" then mPure "❌ Error: Data is required (JSON format)"
  else
    let output_name := if pyStrip output_name = "" then "document.xlsx" else output_name
    tryAll
      (do
        emit .ensureOutputDir
        let output_path := "/app/outputs/" ++ output_name
        if pyTruthy (pyStrip template) ∧ ¬ env.fileExists ("/app/templates/" ++ template) then
          mPure ("❌ Error: Template not found: /app/templates/" ++ template)
        else do
          let rows0 ←
            if pyTruthy (pyStrip template) then
              fromExcept (.templateLoad ("/app/templates/" ++ template))
                (env.loadWorkbookRows ("/app/templates/" ++ template))
            else mPure []
          match json_loads data with
          | none =>
            -- json.JSONDecodeError, caught by its dedicated handler
            mPure "❌ Error: Invalid JSON data"
          | some parsed =>
            match parsed with
            | .arr items => do
              let rows := rows0 ++ items.map (fun r =>
                match r with
                | .arr cells => cells
                | other => [other])
              _ ← fromExcept (.workbookSave output_path rows) env.saveWorkbookRes
              mPure ("✅ Excel document generated successfully: " ++ output_path)
            | _ => mPure "❌ Error: Data must be a JSON array of arrays")
      (fun e => mPure ("❌ Error: " ++ e.msg))

/-- `document_generate_word(content, template, output_name, placeholders)`.
Note: `parse_content_to_paragraph`, called when `content` is non-blank, is
not defined anywhere in `document_server.py`; the resulting `NameError`
is caught by the outer `except Exception` like any other failure. -/
def document_generate_word (env : DocEnv)
    (content template output_name placeholders : String) : M String :=
  if pyStrip content = "" ∧ pyStrip placeholders = "" then
    mPure "❌ Error: Content or placeholders are required"
  else
    let output_name := if pyStrip output_name = "" then "document.docx" else output_name
    tryAll
      (do
        emit .ensureOutputDir
        let output_path := "/app/outputs/" ++ output_name
        if pyTruthy (pyStrip template) ∧ ¬ env.fileExists ("/app/templates/" ++ template) then
          mPure ("❌ Error: Template not found: /app/templates/" ++ template)
        else do
          let doc ←
            if pyTruthy (pyStrip template) then
              -- a `.dotx` template is first copied to a temporary `.docx`;
              -- either way the template file is what gets loaded
              fromExcept (.templateLoad ("/app/templates/" ++ template))
                (env.loadWordDoc ("/app/templates/" ++ template))
            else mPure ⟨[], []⟩
          match (if pyTruthy (pyStrip placeholders) then json_loads placeholders
                 else some (.obj [])) with
          | none => mPure "❌ Error: Invalid JSON for placeholders"
          | some pd =>
            let afterPh : M WordDoc :=
              match pd with
              | .obj fields =>
                mPure (if fields.isEmpty then doc
                       else replace_placeholders_in_doc env.fileExists doc
                         (fields.map (fun f => (f.1, jsonToPyStr f.2))))
              | v =>
                if jsonTruthy v then
                  -- a truthy non-dict value reaches `placeholder_dict.items()`
                  -- and raises AttributeError, caught by the outer handler
                  throwExc ⟨false, "placeholders value has no attribute " ++ q "items"⟩
                else mPure doc
            do
              let doc ← afterPh
              if pyTruthy (pyStrip content) then
                throwExc ⟨false, "name " ++ q "parse_content_to_paragraph" ++ " is not defined"⟩
              else do
                _ ← fromExcept (.docSave output_path doc) env.saveDocRes
                mPure ("✅ Word document generated successfully: " ++ output_path))
      (fun e => mPure ("❌ Error: " ++ e.msg))

/-! ## Status markers and sample worlds -/

/-- The success/warning/error markers that prefix the servers' formatted
status strings (the warning and error markers are exactly the ones
`log_activity` classifies results by). -/
def startsWithStatusMarker (s : String) : Bool :=
  strStarts s "✅" || strStarts s "⚠️" || strStarts s "❌"

/-- A sample oracle in which every external operation succeeds: the agent
command gets PID 77 and reports `exited=1` with exit code 0 and output
`"HI"` at the third poll. -/
def sampleEnv : PxEnv where
  credsOk := true
  authExc := none
  qemuList := .ok []
  lxcList := .ok []
  clusterResources := .ok []
  cloneRes := .ok ()
  configPostRes := .ok ()
  configGetRes := .ok ["scsi0"]
  resizeRes := .ok ()
  snapshotCreateRes := .ok ()
  snapshotListRes := .ok []
  snapshotRollbackRes := .ok ()
  snapshotDeleteRes := .ok ()
  lxcCreateRes := .ok ()
  versionRes := .ok ⟨some "8.1", some "1"⟩
  nodeStatusRes := .ok ⟨some "AMD EPYC", some 16, some 68719476736, some 34359738368⟩
  agentInfoRes := .ok ()
  agentExecRes := .ok (some 77)
  agentExecStatus := fun _ i =>
    .ok ⟨(if i = 2 then some 1 else none), some 0, some "HI", none⟩
  sshExecRes := (0, "out", "")
  rand := fun _ i => [0, 26, 52, 62].getD (i % 4) 0
  passwordFuel := 3

/-- A sample document-server oracle: no template files exist, saves
succeed. -/
def sampleDocEnv : DocEnv where
  fileExists := fun _ => false
  loadWordDoc := fun _ => .ok ⟨[], []⟩
  loadWorkbookRows := fun _ => .ok []
  saveWorkbookRes := .ok ()
  saveDocRes := .ok ()

/-- A sample document with one paragraph and one one-cell table, containing
no placeholder. -/
def sampleDoc : WordDoc :=
  ⟨[⟨[⟨"Hello world", false, false, none⟩], ParaAlign.default⟩],
   [⟨"Normal", false, [[⟨[⟨[⟨"cell text", false, false, none⟩], ParaAlign.default⟩]⟩]]⟩]⟩

/-! # Theorems -/

/-! ## Monad unfolding lemmas -/

theorem mBind_ok_pair (a : α) (t : List Call) (f : α → M β) :
    mBind (.ok a, t) f = ((f a).1, t ++ (f a).2) := rfl

theorem mBind_err_pair (e : Exc) (t : List Call) (f : α → M β) :
    mBind ((.error e : Except Exc α), t) f = (.error e, t) := rfl

theorem M_bind_def (m : M α) (f : α → M β) : m >>= f = mBind m f := rfl

theorem M_pure_def (a : α) : (pure a : M α) = (.ok a, []) := rfl

theorem get_proxmox_client_ok (env : PxEnv) (h1 : env.credsOk = true)
    (h2 : env.authExc = none) : get_proxmox_client env = (.ok (), [.auth]) := by
  simp [get_proxmox_client, h1, h2]

/-! ## C9: `get_next_vmid` -/

theorem nextFreeFrom_spec (existing : List Nat) (c : Nat) :
    c ≤ nextFreeFrom existing c ∧ nextFreeFrom existing c ∉ existing ∧
      ∀ k, c ≤ k → k < nextFreeFrom existing c → k ∈ existing := by
  refine nextFreeFrom.induct existing
    (fun c => c ≤ nextFreeFrom existing c ∧ nextFreeFrom existing c ∉ existing ∧
      ∀ k, c ≤ k → k < nextFreeFrom existing c → k ∈ existing) ?_ ?_ c
  · intro x hx ih
    rw [nextFreeFrom, dif_pos hx]
    obtain ⟨ih1, ih2, ih3⟩ := ih
    refine ⟨by omega, ih2, ?_⟩
    intro k hk1 hk2
    rcases Nat.eq_or_lt_of_le hk1 with rfl | hlt
    · exact hx
    · exact ih3 k hlt hk2
  · intro x hx
    rw [nextFreeFrom, dif_neg hx]
    exact ⟨le_rfl, hx, fun k hk1 hk2 => by omega⟩

/-- C9: `get_next_vmid` returns the decimal string of the least integer that
is at least 100 and is not among the existing VM/container IDs reported by
the cluster (entries without a `vmid` field are skipped); in particular the
returned ID is not an existing ID. -/
theorem claim_C9 (cluster_resources : List ClusterRes) :
    ∃ n, get_next_vmid cluster_resources = Nat.repr n ∧ 100 ≤ n ∧
      n ∉ cluster_resources.filterMap (·.vmid) ∧
      ∀ k, 100 ≤ k → k < n → k ∈ cluster_resources.filterMap (·.vmid) := by
  obtain ⟨h1, h2, h3⟩ := nextFreeFrom_spec (cluster_resources.filterMap (·.vmid)) 100
  refine ⟨nextFreeFrom (cluster_resources.filterMap (·.vmid)) 100, ?_, h1, h2, h3⟩
  rfl

/-- C9 witness: on the cluster `{100, 101, 103}` the tool hands out `"102"`,
derived by applying `claim_C9`. -/
theorem claim_C9_witness :
    get_next_vmid [⟨some 100⟩, ⟨some 101⟩, ⟨some 103⟩] = "102" := by
  obtain ⟨n, hrepr, h100, hnot, hmin⟩ := claim_C9 [⟨some 100⟩, ⟨some 101⟩, ⟨some 103⟩]
  have hids : (([⟨some 100⟩, ⟨some 101⟩, ⟨some 103⟩] : List ClusterRes).filterMap (·.vmid)) =
      [100, 101, 103] := rfl
  rw [hids] at hnot hmin
  have hne : ¬ (n = 100 ∨ n = 101 ∨ n = 103) := by
    intro hc
    exact hnot (by simpa using hc)
  have hle : n ≤ 102 := by
    by_contra hgt
    have := hmin 102 (by omega) (by omega)
    simp at this
  have : n = 102 := by omega
  subst this
  exact hrepr

/-! ## C10: `generate_secure_password` -/

theorem generate_go_spec (rand : Nat → Nat → Nat) (length : Nat) :
    ∀ fuel round p, generate_secure_password_go rand length round fuel = some p →
      p.length = length ∧ passwordOk p = true := by
  intro fuel
  induction fuel with
  | zero =>
    intro round p h
    simp [generate_secure_password_go] at h
  | succ fuel ih =>
    intro round p h
    rw [generate_secure_password_go] at h
    split at h
    · cases h
      refine ⟨?_, by assumption⟩
      simp [passwordCandidate]
    · exact ih (round + 1) p h

theorem vmResizeBlock_ok (env : PxEnv) (node vmid disk_size : String) :
    ∃ msg t, vmResizeBlock env node vmid disk_size = (.ok msg, t) := by
  rw [vmResizeBlock]
  split
  · cases hg : env.configGetRes with
    | error e =>
      simp only [M_bind_def, emit, mBind_ok_pair]
      exact ⟨_, _, rfl⟩
    | ok keys =>
      cases hf : diskKeys.find? (fun d => keys.contains d) with
      | none =>
        simp only [M_bind_def, emit, mBind_ok_pair, hf]
        exact ⟨_, _, rfl⟩
      | some dsk =>
        cases hr : env.resizeRes with
        | error e =>
          simp only [M_bind_def, emit, mBind_ok_pair, hf]
          exact ⟨_, _, rfl⟩
        | ok u =>
          simp only [M_bind_def, emit, mBind_ok_pair, hf]
          exact ⟨_, _, rfl⟩
  · exact ⟨"", [], rfl⟩

theorem log_activity_trace (n : String) (body : M String) :
    (log_activity n body).2 = body.2 := by
  rcases body with ⟨r, t⟩
  cases r <;> rfl

theorem log_activity_ok (n : String) (body : M String) :
    ∃ s, (log_activity n body).1 = .ok s := by
  rcases body with ⟨r, t⟩
  cases r <;> exact ⟨_, rfl⟩

theorem tryAll_trace_mem (c : Call) (body : M α) (handler : Exc → M α)
    (h : c ∈ body.2) : c ∈ (tryAll body handler).2 := by
  rcases body with ⟨r, t⟩
  cases r with
  | ok a => exact h
  | error e => exact List.mem_append_left _ h

theorem createVm_uses_generated_password (env : PxEnv)
    (node vmid template_id name : String) (cores memory : Int) (disk_size : String)
    (pwChars : List Char)
    (hn : ¬ pyStrip node = "") (ht : ¬ pyStrip template_id = "") (hm : ¬ pyStrip name = "")
    (hv : pyTruthy vmid = true)
    (hgen : generate_secure_password env.rand env.passwordFuel
      generate_secure_password_default_length = some pwChars)
    (hcreds : env.credsOk = true) (hauth : env.authExc = none)
    (hclone : env.cloneRes = .ok ()) :
    Call.configPost node vmid (vmConfigUpdates cores memory (String.mk pwChars) none) ∈
      (proxmox_create_vm_from_template env node vmid template_id name "" cores memory
        disk_size "").2 := by
  rw [proxmox_create_vm_from_template, log_activity_trace]
  rw [if_neg (by simp [hn, ht, hm])]
  have hpw : (if ¬ pyTruthy "" then
      generate_secure_password env.rand env.passwordFuel generate_secure_password_default_length
    else some (String.toList "")) = some pwChars := by
    simpa [pyTruthy] using hgen
  rw [hpw]
  apply tryAll_trace_mem
  rw [get_proxmox_client_ok env hcreds hauth]
  simp only [M_bind_def, mBind_ok_pair, hv, Bool.not_eq_true, if_neg, mPure,
    fromExcept, hclone, liftExcept]
  simp [List.mem_append, vmIpConfig, pyTruthy]
  rcases hcp : env.configPostRes with e | u
  · simp [hcp, mBind_ok_pair, emit, List.mem_append]
  · obtain ⟨msg, t, hres⟩ := vmResizeBlock_ok env node vmid disk_size
    simp [hcp, hres, mBind_ok_pair, emit, List.mem_append]

theorem createLxc_uses_generated_password (env : PxEnv)
    (node vmid hostname ostemplate : String) (cores memory : Int)
    (storage disk_size net0 : String) (pwChars : List Char)
    (hn : ¬ pyStrip node = "") (hh : ¬ pyStrip hostname = "") (ho : ¬ pyStrip ostemplate = "")
    (hv : pyTruthy vmid = true)
    (hgen : generate_secure_password env.rand env.passwordFuel
      generate_secure_password_default_length = some pwChars)
    (hcreds : env.credsOk = true) (hauth : env.authExc = none) :
    Call.lxcCreatePost node vmid hostname (String.mk pwChars) ostemplate ∈
      (proxmox_create_lxc env node vmid hostname "" ostemplate cores memory
        storage disk_size net0).2 := by
  rw [proxmox_create_lxc, log_activity_trace]
  rw [if_neg (by simp [hn, hh, ho])]
  have hpw : (if ¬ pyTruthy "" then
      generate_secure_password env.rand env.passwordFuel generate_secure_password_default_length
    else some (String.toList "")) = some pwChars := by
    simpa [pyTruthy] using hgen
  rw [hpw]
  apply tryAll_trace_mem
  rw [get_proxmox_client_ok env hcreds hauth]
  simp only [M_bind_def, mBind_ok_pair, hv, Bool.not_eq_true, if_neg, mPure,
    fromExcept, liftExcept]
  rcases hlxc : env.lxcCreateRes with e | u <;>
    simp [hlxc, mBind, List.mem_append]

/-- C10: (i) every value `generate_secure_password` returns has exactly the
requested length and contains at least one lowercase letter, one uppercase
letter, one digit and one punctuation character; (ii) when the caller of
`proxmox_create_vm_from_template` supplies an empty password, the
`cipassword` sent in the configuration request is exactly the generated
password; (iii) when the caller of `proxmox_create_lxc` supplies an empty
password, the container-creation request carries exactly the generated
password. -/
theorem claim_C10 :
    (∀ rand fuel length p,
        generate_secure_password rand fuel length = some p →
          p.length = length ∧ p.any pyIsLower = true ∧ p.any pyIsUpper = true ∧
            p.any pyIsDigit = true ∧
            p.any (fun c => string_punctuation.contains c) = true) ∧
    (∀ (env : PxEnv) (node vmid template_id name : String) (cores memory : Int)
        (disk_size : String) (pwChars : List Char),
        ¬ pyStrip node = "" → ¬ pyStrip template_id = "" → ¬ pyStrip name = "" →
        pyTruthy vmid = true →
        generate_secure_password env.rand env.passwordFuel
          generate_secure_password_default_length = some pwChars →
        env.credsOk = true → env.authExc = none → env.cloneRes = .ok () →
        Call.configPost node vmid (vmConfigUpdates cores memory (String.mk pwChars) none) ∈
            (proxmox_create_vm_from_template env node vmid template_id name "" cores memory
              disk_size "").2 ∧
          ("cipassword", String.mk pwChars) ∈
            vmConfigUpdates cores memory (String.mk pwChars) none) ∧
    (∀ (env : PxEnv) (node vmid hostname ostemplate : String) (cores memory : Int)
        (storage disk_size net0 : String) (pwChars : List Char),
        ¬ pyStrip node = "" → ¬ pyStrip hostname = "" → ¬ pyStrip ostemplate = "" →
        pyTruthy vmid = true →
        generate_secure_password env.rand env.passwordFuel
          generate_secure_password_default_length = some pwChars →
        env.credsOk = true → env.authExc = none →
        Call.lxcCreatePost node vmid hostname (String.mk pwChars) ostemplate ∈
          (proxmox_create_lxc env node vmid hostname "" ostemplate cores memory
            storage disk_size net0).2) := by
  refine ⟨?_, ?_, ?_⟩
  · intro rand fuel length p h
    obtain ⟨hlen, hok⟩ := generate_go_spec rand length fuel 0 p h
    rw [passwordOk] at hok
    simp only [Bool.and_eq_true] at hok
    exact ⟨hlen, hok.1.1.1, hok.1.1.2, hok.1.2, hok.2⟩
  · intro env node vmid template_id name cores memory disk_size pwChars hn ht hm hv hgen hcreds hauth hclone
    refine ⟨createVm_uses_generated_password env node vmid template_id name cores memory
      disk_size pwChars hn ht hm hv hgen hcreds hauth hclone, ?_⟩
    simp [vmConfigUpdates]
  · intro env node vmid hostname ostemplate cores memory storage disk_size net0 pwChars hn hh ho hv hgen hcreds hauth
    exact createLxc_uses_generated_password env node vmid hostname ostemplate cores memory
      storage disk_size net0 pwChars hn hh ho hv hgen hcreds hauth

/-- C10 witness: with the sample oracle the first candidate `aA0!aA0!aA0!`
passes the check, has length 12 and all four character classes; the VM and
LXC creation requests both carry it when the password argument is empty. -/
theorem claim_C10_witness :
    ((String.toList "aA0!aA0!aA0!").length = 12 ∧
      (String.toList "aA0!aA0!aA0!").any pyIsLower = true ∧
      (String.toList "aA0!aA0!aA0!").any pyIsUpper = true ∧
      (String.toList "aA0!aA0!aA0!").any pyIsDigit = true ∧
      (String.toList "aA0!aA0!aA0!").any (fun c => string_punctuation.contains c) = true) ∧
    Call.configPost "pve" "200"
        (vmConfigUpdates 0 0 (String.mk (String.toList "aA0!aA0!aA0!")) none) ∈
      (proxmox_create_vm_from_template sampleEnv "pve" "200" "9000" "web" "" 0 0 "64G" "").2 ∧
    Call.lxcCreatePost "pve" "201" "ct1" (String.mk (String.toList "aA0!aA0!aA0!")) "tpl" ∈
      (proxmox_create_lxc sampleEnv "pve" "201" "ct1" "" "tpl" 1 512 "local-lvm" "8G"
        "name=eth0,bridge=vmbr0,ip=dhcp").2 := by
  refine ⟨claim_C10.1 sampleEnv.rand 3 12 (String.toList "aA0!aA0!aA0!") (by rfl), ?_, ?_⟩
  · exact (claim_C10.2.1 sampleEnv "pve" "200" "9000" "web" 0 0 "64G"
      (String.toList "aA0!aA0!aA0!") (by decide) (by decide) (by decide) (by decide)
      (by rfl) rfl rfl rfl).1
  · exact claim_C10.2.2 sampleEnv "pve" "201" "ct1" "tpl" 1 512 "local-lvm" "8G"
      "name=eth0,bridge=vmbr0,ip=dhcp" (String.toList "aA0!aA0!aA0!") (by decide)
      (by decide) (by decide) (by decide) (by rfl) rfl rfl

/-! ## C4: every exception is caught at the operation boundary -/

theorem tryAll_ok_of_pure_handler (body : M String) (f : Exc → String) :
    ∃ s, (tryAll body (fun e => mPure (f e))).1 = .ok s := by
  rcases body with ⟨r, t⟩
  cases r <;> exact ⟨_, rfl⟩

/-- C4: (i) `log_activity` converts any exception escaping a wrapped tool
body into an "Internal Server Error" string, so every wrapped Proxmox tool
returns a string; (ii) `proxmox_get_server_specs`, the one unwrapped tool,
returns a string for every oracle because its own `try/except` covers
everything after the node check, which cannot raise; (iii)/(iv) the
document tools likewise return a string for every oracle — no tool
invocation propagates an exception to the caller. -/
theorem claim_C4 :
    (∀ (tool_name : String) (body : M String), ∃ s, (log_activity tool_name body).1 = .ok s) ∧
    (∀ (env : PxEnv) (node : String), ∃ s, (proxmox_get_server_specs env node).1 = .ok s) ∧
    (∀ (env : DocEnv) (content template output_name placeholders : String),
        ∃ s, (document_generate_word env content template output_name placeholders).1 = .ok s) ∧
    (∀ (env : DocEnv) (data template output_name : String),
        ∃ s, (document_generate_excel env data template output_name).1 = .ok s) := by
  refine ⟨log_activity_ok, ?_, ?_, ?_⟩
  · intro env node
    rw [proxmox_get_server_specs]
    split
    · exact ⟨_, rfl⟩
    · exact tryAll_ok_of_pure_handler _ _
  · intro env content template output_name placeholders
    rw [document_generate_word]
    split
    · exact ⟨_, rfl⟩
    · exact tryAll_ok_of_pure_handler _ _
  · intro env data template output_name
    rw [document_generate_excel]
    split
    · exact ⟨_, rfl⟩
    · exact tryAll_ok_of_pure_handler _ _

/-! ## C1: required-argument validation versus external calls -/

/-- C1 counterexample: `proxmox_manage_snapshot` with `action="create"` and
an empty snapshot name does return the error string, but only after
`get_proxmox_client` has constructed and authenticated the client — the
trace holds the authentication request, so the claim that no external call
is attempted for a conditionally required argument is false. -/
theorem claim_C1_counterexample :
    proxmox_manage_snapshot sampleEnv "node1" "100" "create" "" "" =
      (.ok "❌ Error: Snapshot name is required for create action.", [.auth]) ∧
    ([Call.auth] : List Call) ≠ [] := by
  exact ⟨rfl, by simp⟩

/-- C1 (amended): for the unconditionally required arguments checked at the
top of each handler, an omitted (blank) argument yields an error string
with an empty external-call trace — in particular `proxmox_list_vms` with
a blank node, `proxmox_manage_snapshot` with blank node/VMID or a bad
action, `proxmox_execute_command` with a missing argument and
`document_generate_excel` with blank data; but for the conditionally
required snapshot name of `proxmox_manage_snapshot` (actions `create`,
`rollback`, `delete`) the error string is returned only after the client
authentication request has been attempted: the trace is exactly the
authentication call. -/
theorem claim_C1 :
    (∀ (env : PxEnv) (node : String), pyStrip node = "" →
        proxmox_list_vms env node = (.ok "❌ Error: Node name is required", [])) ∧
    (∀ (env : PxEnv) (node vmid action name description : String),
        (pyStrip node = "" ∨ pyStrip vmid = "" ∨
          action ∉ (["create", "list", "rollback", "delete"] : List String)) →
        proxmox_manage_snapshot env node vmid action name description =
          (.ok snapArgsMsg, [])) ∧
    (∀ (env : PxEnv) (node vmid command ip_address ssh_user ssh_password ssh_private_key :
          String) (ssh_port : Int),
        (pyTruthy node && pyTruthy vmid && pyTruthy command) = false →
        proxmox_execute_command env node vmid command ip_address ssh_user ssh_password
            ssh_private_key ssh_port =
          (.ok "❌ Error: Node, VMID, and command are required.", [])) ∧
    (∀ (env : DocEnv) (data template output_name : String), pyStrip data = "" →
        document_generate_excel env data template output_name =
          (.ok "❌ Error: Data is required (JSON format)", [])) ∧
    (∀ (env : PxEnv) (node vmid name description : String),
        ¬ pyStrip node = "" → ¬ pyStrip vmid = "" → pyStrip name = "" →
        env.credsOk = true → env.authExc = none →
        proxmox_manage_snapshot env node vmid "create" name description =
          (.ok "❌ Error: Snapshot name is required for create action.", [.auth])) := by
  refine ⟨?_, ?_, ?_, ?_, ?_⟩
  · intro env node h
    simp [proxmox_list_vms, h, log_activity, mPure]
  · intro env node vmid action name description h
    rw [proxmox_manage_snapshot, if_pos h]
    rfl
  · intro env node vmid command ip_address ssh_user ssh_password ssh_private_key ssh_port h
    rw [proxmox_execute_command, if_pos (by simp [h])]
    rfl
  · intro env data template output_name h
    rw [document_generate_excel, if_pos h]
    rfl
  · intro env node vmid name description h1 h2 h3 hcreds hauth
    rw [proxmox_manage_snapshot, if_neg (by simp [h1, h2])]
    rw [get_proxmox_client_ok env hcreds hauth]
    simp [tryAll, M_bind_def, mBind_ok_pair, h3, mPure, log_activity]

/-- C1 witness: the blank-node and blank-snapshot-name instances at the
sample oracle, via `claim_C1`. -/
theorem claim_C1_witness :
    proxmox_list_vms sampleEnv "" = (.ok "❌ Error: Node name is required", []) ∧
    proxmox_manage_snapshot sampleEnv "node1" "100" "create" " " "" =
      (.ok "❌ Error: Snapshot name is required for create action.", [.auth]) := by
  exact ⟨claim_C1.1 sampleEnv "" rfl,
    claim_C1.2.2.2.2 sampleEnv "node1" "100" " " "" (by decide) (by decide) (by decide)
      rfl rfl⟩

/-! ## C5: no rollback after a partial failure of the clone sequence -/

theorem strMk_toList (s : String) : String.mk s.toList = s := rfl

theorem strMk_data (s : String) : String.mk s.data = s := rfl

/-- C5: (i) when the configuration step fails after a successful clone, the
operation returns a warning naming the configuration failure and the trace
is exactly authentication, clone and the failed configuration request — no
delete or other undo request follows the clone; (ii) when the disk resize
fails after a successful clone and configuration, the operation returns
the success message with the resize failure reported in `resize_msg`, and
the trace is exactly authentication, clone, configuration, config read and
the failed resize — nothing is rolled back. -/
theorem claim_C5 :
    (∀ (env : PxEnv) (node vmid template_id name : String) (cores memory : Int)
        (disk_size password : String) (e : Exc),
        ¬ pyStrip node = "" → ¬ pyStrip template_id = "" → ¬ pyStrip name = "" →
        pyTruthy vmid = true → pyTruthy password = true →
        env.credsOk = true → env.authExc = none → env.cloneRes = .ok () →
        env.configPostRes = .error e →
        proxmox_create_vm_from_template env node vmid template_id name "" cores memory
            disk_size password =
          (.ok ("⚠️ VM " ++ vmid ++ " created but configuration failed: " ++ e.msg ++
              "\n" ++ "🔑 **Password**: (Set by user)"),
           [.auth, .clonePost node template_id vmid name,
            .configPost node vmid (vmConfigUpdates cores memory password none)])) ∧
    (∀ (env : PxEnv) (node vmid template_id name : String) (cores memory : Int)
        (disk_size password : String) (keys : List String) (dsk : String) (e : Exc),
        ¬ pyStrip node = "" → ¬ pyStrip template_id = "" → ¬ pyStrip name = "" →
        pyTruthy vmid = true → pyTruthy password = true → pyTruthy disk_size = true →
        env.credsOk = true → env.authExc = none → env.cloneRes = .ok () →
        env.configPostRes = .ok () → env.configGetRes = .ok keys →
        diskKeys.find? (fun d => keys.contains d) = some dsk →
        env.resizeRes = .error e →
        proxmox_create_vm_from_template env node vmid template_id name "" cores memory
            disk_size password =
          (.ok (createSuccessMsg vmid name template_id node cores memory
              (" (Disk resize failed: " ++ e.msg ++ ")") "" "🔑 **Password**: (Set by user)"),
           [.auth, .clonePost node template_id vmid name,
            .configPost node vmid (vmConfigUpdates cores memory password none),
            .configGet node vmid, .resizePut node vmid dsk disk_size])) := by
  constructor
  · intro env node vmid template_id name cores memory disk_size password e
      hn ht hm hv hp hcreds hauth hclone hcp
    rw [proxmox_create_vm_from_template, if_neg (by simp [hn, ht, hm])]
    have hpw : (if ¬ pyTruthy password then
        generate_secure_password env.rand env.passwordFuel
          generate_secure_password_default_length
      else some (String.toList password)) = some (String.toList password) := by
      simp [hp]
    rw [hpw]
    rw [get_proxmox_client_ok env hcreds hauth]
    have hv' : ¬ (vmid = "") := by simpa [pyTruthy] using hv
    have hp' : ¬ (password = "") := by simpa [pyTruthy] using hp
    simp [tryAll, M_bind_def, mBind_ok_pair, hv', hp', mPure, fromExcept, hclone, liftExcept,
      vmIpConfig, pyTruthy, emit, hcp, log_activity, strMk_toList, strMk_data, passMsgOf]
  · intro env node vmid template_id name cores memory disk_size password keys dsk e
      hn ht hm hv hp hd hcreds hauth hclone hcp hcg hfind hres
    rw [proxmox_create_vm_from_template, if_neg (by simp [hn, ht, hm])]
    have hpw : (if ¬ pyTruthy password then
        generate_secure_password env.rand env.passwordFuel
          generate_secure_password_default_length
      else some (String.toList password)) = some (String.toList password) := by
      simp [hp]
    rw [hpw]
    rw [get_proxmox_client_ok env hcreds hauth]
    have hv' : ¬ (vmid = "") := by simpa [pyTruthy] using hv
    have hp' : ¬ (password = "") := by simpa [pyTruthy] using hp
    have hd' : ¬ (disk_size = "") := by simpa [pyTruthy] using hd
    simp at hfind
    simp [tryAll, M_bind_def, mBind_ok_pair, hv', hp', hd', mPure, fromExcept, hclone,
      liftExcept, vmIpConfig, pyTruthy, emit, hcp, log_activity, strMk_toList, strMk_data,
      passMsgOf, vmResizeBlock, hcg, hfind, hres]

/-- C5 witness: both failure shapes at concrete oracles, via `claim_C5`. -/
theorem claim_C5_witness :
    proxmox_create_vm_from_template { sampleEnv with configPostRes := .error ⟨true, "boom"⟩ }
        "pve" "200" "9000" "web" "" 0 0 "64G" "s3cret" =
      (.ok ("⚠️ VM 200 created but configuration failed: boom\n🔑 **Password**: (Set by user)"),
       [.auth, .clonePost "pve" "9000" "200" "web",
        .configPost "pve" "200" (vmConfigUpdates 0 0 "s3cret" none)]) ∧
    proxmox_create_vm_from_template { sampleEnv with resizeRes := .error ⟨true, "nope"⟩ }
        "pve" "200" "9000" "web" "" 2 4096 "64G" "s3cret" =
      (.ok (createSuccessMsg "200" "web" "9000" "pve" 2 4096
          " (Disk resize failed: nope)" "" "🔑 **Password**: (Set by user)"),
       [.auth, .clonePost "pve" "9000" "200" "web",
        .configPost "pve" "200" (vmConfigUpdates 2 4096 "s3cret" none),
        .configGet "pve" "200", .resizePut "pve" "200" "scsi0" "64G"]) := by
  constructor
  · exact claim_C5.1 { sampleEnv with configPostRes := .error ⟨true, "boom"⟩ }
      "pve" "200" "9000" "web" 0 0 "64G" "s3cret" ⟨true, "boom"⟩
      (by decide) (by decide) (by decide) (by decide) (by decide) rfl rfl rfl rfl
  · exact claim_C5.2 { sampleEnv with resizeRes := .error ⟨true, "nope"⟩ }
      "pve" "200" "9000" "web" 2 4096 "64G" "s3cret" ["scsi0"] "scsi0" ⟨true, "nope"⟩
      (by decide) (by decide) (by decide) (by decide) (by decide) (by decide)
      rfl rfl rfl rfl rfl (by decide) rfl

/-! ## C2: the SSH fallback condition -/

theorem isAgentPathCall_not_ssh (c : Call) (h : isAgentPathCall c = true) :
    isSshCall c = false := by
  cases c <;> simp_all [isAgentPathCall, isSshCall]

theorem agentPollLoop_calls (env : PxEnv) (node vmid : String) (pid : Nat) :
    ∀ fuel idx, (agentPollLoop env node vmid pid idx fuel).2.all isAgentPathCall = true := by
  intro fuel
  induction fuel with
  | zero => intro idx; rfl
  | succ fuel ih =>
    intro idx
    rw [agentPollLoop]
    rcases hst : env.agentExecStatus pid idx with e | st
    · simp [M_bind_def, mBind, fromExcept, hst, isAgentPathCall]
    · simp only [M_bind_def, fromExcept, hst, mBind_ok_pair]
      rcases hex : st.exited with _ | n
      · simp [hex, emit, mBind_ok_pair, mPure, isAgentPathCall, List.all_append, ih]
      · by_cases hn : n = 1
        · subst hn
          simp [hex, mPure, isAgentPathCall]
        · simp [hex, hn, emit, mBind_ok_pair, mPure, isAgentPathCall, List.all_append, ih]

theorem executeCommandAgentPhase_calls (env : PxEnv) (node vmid command : String) :
    (executeCommandAgentPhase env node vmid command).2.all isAgentPathCall = true := by
  rw [executeCommandAgentPhase]
  rcases hinfo : env.agentInfoRes with e | u
  · simp [M_bind_def, mBind, fromExcept, hinfo, isAgentPathCall]
  · rcases hexec : env.agentExecRes with e | popt
    · simp [M_bind_def, mBind, fromExcept, hinfo, hexec, isAgentPathCall]
    · by_cases hpid : popt.getD 0 = 0
      · simp [M_bind_def, mBind, fromExcept, hinfo, hexec, hpid, throwExc, isAgentPathCall]
      · have hl := agentPollLoop_calls env node vmid (popt.getD 0) 30 0
        rcases hloop : agentPollLoop env node vmid (popt.getD 0) 0 30 with ⟨r, t⟩
        rw [hloop] at hl
        cases r with
        | error e =>
          simp_all [M_bind_def, mBind, fromExcept, hpid, isAgentPathCall, List.all_append]
        | ok outcome =>
          rcases outcome with _ | st
          · simp_all [M_bind_def, mBind, fromExcept, hpid, mPure, isAgentPathCall,
              List.all_append]
          · by_cases hec : st.exitcode = some 0 <;>
              simp_all [M_bind_def, mBind, fromExcept, hpid, mPure, isAgentPathCall,
                List.all_append]


theorem installSoftwareAgentPhase_calls (env : PxEnv) (node vmid software : String) :
    (installSoftwareAgentPhase env node vmid software).2.all isAgentPathCall = true := by
  rw [installSoftwareAgentPhase]
  rcases hinfo : env.agentInfoRes with e | u
  · simp [M_bind_def, mBind, fromExcept, hinfo, isAgentPathCall]
  · rcases hexec : env.agentExecRes with e | popt
    · simp [M_bind_def, mBind, fromExcept, hinfo, hexec, isAgentPathCall]
    · by_cases hpid : popt.getD 0 = 0
      · simp [M_bind_def, mBind, fromExcept, hinfo, hexec, hpid, throwExc, isAgentPathCall]
      · have hl := agentPollLoop_calls env node vmid (popt.getD 0) 60 0
        rcases hloop : agentPollLoop env node vmid (popt.getD 0) 0 60 with ⟨r, t⟩
        rw [hloop] at hl
        cases r with
        | error e =>
          simp_all [M_bind_def, mBind, fromExcept, hpid, isAgentPathCall, List.all_append]
        | ok outcome =>
          rcases outcome with _ | st
          · simp_all [M_bind_def, mBind, fromExcept, hpid, mPure, isAgentPathCall,
              List.all_append]
          · by_cases hec : st.exitcode = some 0 <;>
              simp_all [M_bind_def, mBind, fromExcept, hpid, mPure, isAgentPathCall,
                List.all_append]

theorem all_agentPath_no_ssh (t : List Call) (h : t.all isAgentPathCall = true) :
    t.any isSshCall = false := by
  rw [List.all_eq_true] at h
  rw [List.any_eq_false]
  intro c hc
  have := isAgentPathCall_not_ssh c (h c hc)
  simp [this]

/-- C2 counterexample: with an oracle whose agent endpoints all succeed but
whose `exec` response carries no PID, the handler itself raises
`ResourceException` and the SSH fallback is entered (an SSH session
appears in the trace) although no guest-agent call failed, let alone with
the "agent unavailable" condition — refuting "fallback if and only if the
primary agent call fails with agent unavailable". -/
theorem claim_C2_counterexample :
    ((proxmox_execute_command { sampleEnv with agentExecRes := .ok none }
        "n" "100" "ls" "1.2.3.4" "root" "pw" "" 22).2.any isSshCall = true) ∧
    ({ sampleEnv with agentExecRes := .ok none } : PxEnv).agentInfoRes = .ok () ∧
    ({ sampleEnv with agentExecRes := .ok none } : PxEnv).agentExecRes = .ok none := by
  exact ⟨rfl, rfl, rfl⟩

/-- C2 (amended): for `proxmox_execute_command` and
`proxmox_install_software`, the SSH fallback is entered if and only if
the guest-agent phase raises a `ResourceException` — which covers the
"agent unavailable" failure but equally any other hypervisor
`ResourceException` and the locally raised "No PID returned" error — and
the supplied credentials are complete; an SSH session appears in the
trace exactly in that case.  When the agent phase raises a
`ResourceException` but `ip_address`, `ssh_user`, or both of
`ssh_password`/`ssh_private_key` are missing, the operation returns the
fixed error message listing the required credential arguments and no SSH
session is opened.  Non-`ResourceException` errors never reach the
fallback: they escape to `log_activity`. -/
theorem claim_C2 :
    (∀ (env : PxEnv) (node vmid command ip_address ssh_user ssh_password ssh_private_key :
          String) (ssh_port : Int),
        (pyTruthy node && pyTruthy vmid && pyTruthy command) = true →
        env.credsOk = true → env.authExc = none →
        (((proxmox_execute_command env node vmid command ip_address ssh_user ssh_password
              ssh_private_key ssh_port).2.any isSshCall = true) ↔
          ((∃ e, (executeCommandAgentPhase env node vmid command).1 = .error e ∧
              e.isResource = true) ∧
            sshCredsComplete ip_address ssh_user ssh_password ssh_private_key = true))) ∧
    (∀ (env : PxEnv) (node vmid command ip_address ssh_user ssh_password ssh_private_key :
          String) (ssh_port : Int) (e : Exc) (t : List Call),
        (pyTruthy node && pyTruthy vmid && pyTruthy command) = true →
        env.credsOk = true → env.authExc = none →
        executeCommandAgentPhase env node vmid command = (.error e, t) →
        e.isResource = true →
        sshCredsComplete ip_address ssh_user ssh_password ssh_private_key = false →
        (proxmox_execute_command env node vmid command ip_address ssh_user ssh_password
              ssh_private_key ssh_port).1 = .ok (missingSshCredsMsg vmid) ∧
          (proxmox_execute_command env node vmid command ip_address ssh_user ssh_password
              ssh_private_key ssh_port).2.any isSshCall = false) ∧
    (∀ (env : PxEnv) (node vmid software ip_address ssh_user ssh_password ssh_private_key :
          String) (ssh_port : Int),
        (pyTruthy node && pyTruthy vmid && pyTruthy software) = true →
        env.credsOk = true → env.authExc = none →
        (((proxmox_install_software env node vmid software ip_address ssh_user ssh_password
              ssh_private_key ssh_port).2.any isSshCall = true) ↔
          ((∃ e, (installSoftwareAgentPhase env node vmid software).1 = .error e ∧
              e.isResource = true) ∧
            sshCredsComplete ip_address ssh_user ssh_password ssh_private_key = true))) ∧
    (∀ (env : PxEnv) (node vmid software ip_address ssh_user ssh_password ssh_private_key :
          String) (ssh_port : Int) (e : Exc) (t : List Call),
        (pyTruthy node && pyTruthy vmid && pyTruthy software) = true →
        env.credsOk = true → env.authExc = none →
        installSoftwareAgentPhase env node vmid software = (.error e, t) →
        e.isResource = true →
        sshCredsComplete ip_address ssh_user ssh_password ssh_private_key = false →
        (proxmox_install_software env node vmid software ip_address ssh_user ssh_password
              ssh_private_key ssh_port).1 = .ok (missingSshCredsMsg vmid) ∧
          (proxmox_install_software env node vmid software ip_address ssh_user ssh_password
              ssh_private_key ssh_port).2.any isSshCall = false) := by
  refine ⟨?_, ?_, ?_, ?_⟩
  · intro env node vmid command ip_address ssh_user ssh_password ssh_private_key ssh_port
      hargs hcreds hauth
    rw [proxmox_execute_command, log_activity_trace, if_neg (by simp [hargs]),
      get_proxmox_client_ok env hcreds hauth]
    have hcalls := executeCommandAgentPhase_calls env node vmid command
    rcases hph : executeCommandAgentPhase env node vmid command with ⟨r, t⟩
    rw [hph] at hcalls
    have htany : t.any isSshCall = false := all_agentPath_no_ssh t hcalls
    cases r with
    | ok s =>
      simp [M_bind_def, mBind_ok_pair, tryResource, List.any_append, htany, isSshCall, hph]
    | error e =>
      by_cases hres : e.isResource = true
      · by_cases hcc : sshCredsComplete ip_address ssh_user ssh_password ssh_private_key = true
        · by_cases hssh : env.sshExecRes.1 = 0 <;>
            simp [M_bind_def, mBind_ok_pair, tryResource, hres, executeCommandFallback, hcc,
              emit, mPure, List.any_append, htany, isSshCall, hph, hssh]
        · simp [M_bind_def, mBind_ok_pair, tryResource, hres, executeCommandFallback, hcc,
            mPure, List.any_append, htany, isSshCall, hph]
      · simp [M_bind_def, mBind_ok_pair, tryResource, hres, List.any_append, htany, hph,
          isSshCall]
  · intro env node vmid command ip_address ssh_user ssh_password ssh_private_key ssh_port
      e t hargs hcreds hauth hph hres hcc
    rw [proxmox_execute_command]
    have hbody : (if ¬ ((pyTruthy node && pyTruthy vmid && pyTruthy command) = true) then
        mPure "❌ Error: Node, VMID, and command are required."
      else do
        get_proxmox_client env
        tryResource (executeCommandAgentPhase env node vmid command)
          (fun _ =>
            executeCommandFallback env vmid ip_address ssh_user ssh_password
              ssh_private_key ssh_port command)) =
        (.ok (missingSshCredsMsg vmid), [.auth] ++ (t ++ [])) := by
      rw [if_neg (by simp [hargs]), get_proxmox_client_ok env hcreds hauth]
      have hcalls := executeCommandAgentPhase_calls env node vmid command
      rw [hph] at hcalls
      simp [M_bind_def, mBind_ok_pair, tryResource, hph, hres, executeCommandFallback, hcc,
        mPure]
    rw [hbody]
    have hcalls := executeCommandAgentPhase_calls env node vmid command
    rw [hph] at hcalls
    have htany : t.any isSshCall = false := all_agentPath_no_ssh t hcalls
    exact ⟨rfl, by simp [log_activity, List.any_append, htany, isSshCall]⟩
  · intro env node vmid software ip_address ssh_user ssh_password ssh_private_key ssh_port
      hargs hcreds hauth
    rw [proxmox_install_software, log_activity_trace, if_neg (by simp [hargs]),
      get_proxmox_client_ok env hcreds hauth]
    have hcalls := installSoftwareAgentPhase_calls env node vmid software
    rcases hph : installSoftwareAgentPhase env node vmid software with ⟨r, t⟩
    rw [hph] at hcalls
    have htany : t.any isSshCall = false := all_agentPath_no_ssh t hcalls
    cases r with
    | ok s =>
      simp [M_bind_def, mBind_ok_pair, tryResource, List.any_append, htany, isSshCall, hph]
    | error e =>
      by_cases hres : e.isResource = true
      · by_cases hcc : sshCredsComplete ip_address ssh_user ssh_password ssh_private_key = true
        · by_cases hssh : env.sshExecRes.1 = 0 <;>
            simp [M_bind_def, mBind_ok_pair, tryResource, hres, installSoftwareFallback, hcc,
              emit, mPure, List.any_append, htany, isSshCall, hph, hssh]
        · simp [M_bind_def, mBind_ok_pair, tryResource, hres, installSoftwareFallback, hcc,
            mPure, List.any_append, htany, isSshCall, hph]
      · simp [M_bind_def, mBind_ok_pair, tryResource, hres, List.any_append, htany, hph,
          isSshCall]
  · intro env node vmid software ip_address ssh_user ssh_password ssh_private_key ssh_port
      e t hargs hcreds hauth hph hres hcc
    rw [proxmox_install_software]
    have hbody : (if ¬ ((pyTruthy node && pyTruthy vmid && pyTruthy software) = true) then
        mPure "❌ Error: Node, VMID, and software name are required."
      else do
        get_proxmox_client env
        tryResource (installSoftwareAgentPhase env node vmid software)
          (fun _ =>
            installSoftwareFallback env vmid ip_address ssh_user ssh_password
              ssh_private_key ssh_port software)) =
        (.ok (missingSshCredsMsg vmid), [.auth] ++ (t ++ [])) := by
      rw [if_neg (by simp [hargs]), get_proxmox_client_ok env hcreds hauth]
      have hcalls := installSoftwareAgentPhase_calls env node vmid software
      rw [hph] at hcalls
      simp [M_bind_def, mBind_ok_pair, tryResource, hph, hres, installSoftwareFallback, hcc,
        mPure]
    rw [hbody]
    have hcalls := installSoftwareAgentPhase_calls env node vmid software
    rw [hph] at hcalls
    have htany : t.any isSshCall = false := all_agentPath_no_ssh t hcalls
    exact ⟨rfl, by simp [log_activity, List.any_append, htany, isSshCall]⟩

/-- C2 witness: with the no-PID oracle and no credentials supplied, the
operation reports the credential requirements and opens no SSH session,
via `claim_C2`. -/
theorem claim_C2_witness :
    (proxmox_execute_command { sampleEnv with agentExecRes := .ok none }
        "n" "100" "ls" "" "" "" "" 22).1 = .ok (missingSshCredsMsg "100") ∧
    (proxmox_execute_command { sampleEnv with agentExecRes := .ok none }
        "n" "100" "ls" "" "" "" "" 22).2.any isSshCall = false := by
  exact claim_C2.2.1 { sampleEnv with agentExecRes := .ok none }
    "n" "100" "ls" "" "" "" "" 22
    ⟨true, "Failed to start execution (No PID returned)."⟩
    [.agentInfoGet "n" "100", .agentExecPost "n" "100" ["/bin/bash", "-c", "ls"]]
    rfl rfl rfl rfl rfl rfl

/-! ## C3: the guest-agent polling loop -/

theorem agentPollLoop_success (env : PxEnv) (node vmid : String) (pid : Nat)
    (st : AgentStatus) (hexit : st.exited = some 1) :
    ∀ n fuel idx, n < fuel →
      (∀ k, k < n → ∃ stk, env.agentExecStatus pid (idx + k) = .ok stk ∧
        stk.exited ≠ some 1) →
      env.agentExecStatus pid (idx + n) = .ok st →
      ∃ t, agentPollLoop env node vmid pid idx fuel = (.ok (some st), t) ∧
        countStatusCalls t = n + 1 ∧ t.all isAgentPathCall = true := by
  intro n
  induction n with
  | zero =>
    intro fuel idx hfuel hpre hst
    obtain ⟨f, rfl⟩ : ∃ f, fuel = f + 1 := ⟨fuel - 1, by omega⟩
    rw [Nat.add_zero] at hst
    refine ⟨[.agentExecStatusGet node vmid pid], ?_,
      by simp [countStatusCalls, isStatusCall], by simp [isAgentPathCall]⟩
    rw [agentPollLoop]
    simp [M_bind_def, fromExcept, hst, mBind_ok_pair, hexit, mPure]
  | succ n ih =>
    intro fuel idx hfuel hpre hst
    obtain ⟨f, rfl⟩ : ∃ f, fuel = f + 1 := ⟨fuel - 1, by omega⟩
    obtain ⟨st0, hst0, hne⟩ := hpre 0 (by omega)
    rw [Nat.add_zero] at hst0
    have hpre' : ∀ k, k < n → ∃ stk, env.agentExecStatus pid ((idx + 1) + k) = .ok stk ∧
        stk.exited ≠ some 1 := by
      intro k hk
      obtain ⟨stk, h1, h2⟩ := hpre (k + 1) (by omega)
      refine ⟨stk, ?_, h2⟩
      have harith : (idx + 1) + k = idx + (k + 1) := by omega
      rw [harith]
      exact h1
    have hst' : env.agentExecStatus pid ((idx + 1) + n) = .ok st := by
      have harith : (idx + 1) + n = idx + (n + 1) := by omega
      rw [harith]
      exact hst
    obtain ⟨t, hloop, hcount, hall⟩ := ih f (idx + 1) (by omega) hpre' hst'
    refine ⟨.agentExecStatusGet node vmid pid :: .sleepSec 2 :: t, ?_, ?_, ?_⟩
    · rw [agentPollLoop]
      simp [M_bind_def, fromExcept, hst0, mBind_ok_pair, hne, emit, hloop]
    · simp [countStatusCalls, List.countP_cons, isStatusCall] at hcount ⊢
      omega
    · simp [isAgentPathCall, hall]

theorem agentPollLoop_timeout (env : PxEnv) (node vmid : String) (pid : Nat) :
    ∀ fuel idx,
      (∀ k, k < fuel → ∃ stk, env.agentExecStatus pid (idx + k) = .ok stk ∧
        stk.exited ≠ some 1) →
      ∃ t, agentPollLoop env node vmid pid idx fuel = (.ok none, t) ∧
        countStatusCalls t = fuel ∧ t.all isAgentPathCall = true := by
  intro fuel
  induction fuel with
  | zero =>
    intro idx h
    exact ⟨[], rfl, rfl, rfl⟩
  | succ f ih =>
    intro idx h
    obtain ⟨st0, hst0, hne⟩ := h 0 (by omega)
    rw [Nat.add_zero] at hst0
    have h' : ∀ k, k < f → ∃ stk, env.agentExecStatus pid ((idx + 1) + k) = .ok stk ∧
        stk.exited ≠ some 1 := by
      intro k hk
      obtain ⟨stk, h1, h2⟩ := h (k + 1) (by omega)
      refine ⟨stk, ?_, h2⟩
      have harith : (idx + 1) + k = idx + (k + 1) := by omega
      rw [harith]
      exact h1
    obtain ⟨t, hloop, hcount, hall⟩ := ih (idx + 1) h'
    refine ⟨.agentExecStatusGet node vmid pid :: .sleepSec 2 :: t, ?_, ?_, ?_⟩
    · rw [agentPollLoop]
      simp [M_bind_def, fromExcept, hst0, mBind_ok_pair, hne, emit, hloop]
    · simp [countStatusCalls, List.countP_cons, isStatusCall] at hcount ⊢
      omega
    · simp [isAgentPathCall, hall]

/-- C3: for both polled operations — `proxmox_execute_command` (30 polls)
and `proxmox_install_software` (60 polls), both at a fixed 2-second
interval — (i) a status sequence that first reports `exited=1` with exit
code 0 at poll `n` below the cap yields the success message carrying the
captured output after exactly `n+1` status polls; (ii) a status sequence
that never reports `exited` yields the timeout message after exactly the
cap many polls; in all cases every call attempted is of the agent-path
kinds (authentication, probe, exec, status poll, 2-second sleep) — in
particular nothing cancels the remote command. -/
theorem claim_C3 :
    (∀ (env : PxEnv) (node vmid command ip_address ssh_user ssh_password ssh_private_key :
          String) (ssh_port : Int) (pid n : Nat) (out : String) (errD : Option String),
        (pyTruthy node && pyTruthy vmid && pyTruthy command) = true →
        env.credsOk = true → env.authExc = none →
        env.agentInfoRes = .ok () → env.agentExecRes = .ok (some pid) → pid ≠ 0 →
        n < 30 →
        (∀ k, k < n → ∃ stk, env.agentExecStatus pid k = .ok stk ∧ stk.exited ≠ some 1) →
        env.agentExecStatus pid n = .ok ⟨some 1, some 0, some out, errD⟩ →
        (proxmox_execute_command env node vmid command ip_address ssh_user ssh_password
              ssh_private_key ssh_port).1 =
            .ok ("✅ Agent command executed successfully.\nOutput: " ++ out) ∧
          countStatusCalls (proxmox_execute_command env node vmid command ip_address
              ssh_user ssh_password ssh_private_key ssh_port).2 = n + 1 ∧
          (proxmox_execute_command env node vmid command ip_address ssh_user ssh_password
              ssh_private_key ssh_port).2.all isAgentPathCall = true) ∧
    (∀ (env : PxEnv) (node vmid command ip_address ssh_user ssh_password ssh_private_key :
          String) (ssh_port : Int) (pid : Nat),
        (pyTruthy node && pyTruthy vmid && pyTruthy command) = true →
        env.credsOk = true → env.authExc = none →
        env.agentInfoRes = .ok () → env.agentExecRes = .ok (some pid) → pid ≠ 0 →
        (∀ k, k < 30 → ∃ stk, env.agentExecStatus pid k = .ok stk ∧ stk.exited ≠ some 1) →
        (proxmox_execute_command env node vmid command ip_address ssh_user ssh_password
              ssh_private_key ssh_port).1 =
            .ok ("⏳ Agent command started (PID " ++ Nat.repr pid ++ "), but timed out.") ∧
          countStatusCalls (proxmox_execute_command env node vmid command ip_address
              ssh_user ssh_password ssh_private_key ssh_port).2 = 30 ∧
          (proxmox_execute_command env node vmid command ip_address ssh_user ssh_password
              ssh_private_key ssh_port).2.all isAgentPathCall = true) ∧
    (∀ (env : PxEnv) (node vmid software ip_address ssh_user ssh_password ssh_private_key :
          String) (ssh_port : Int) (pid n : Nat) (out : String) (errD : Option String),
        (pyTruthy node && pyTruthy vmid && pyTruthy software) = true →
        env.credsOk = true → env.authExc = none →
        env.agentInfoRes = .ok () → env.agentExecRes = .ok (some pid) → pid ≠ 0 →
        n < 60 →
        (∀ k, k < n → ∃ stk, env.agentExecStatus pid k = .ok stk ∧ stk.exited ≠ some 1) →
        env.agentExecStatus pid n = .ok ⟨some 1, some 0, some out, errD⟩ →
        (proxmox_install_software env node vmid software ip_address ssh_user ssh_password
              ssh_private_key ssh_port).1 =
            .ok ("✅ " ++ q software ++ " installed successfully via Guest Agent!\nOutput: " ++
              out) ∧
          countStatusCalls (proxmox_install_software env node vmid software ip_address
              ssh_user ssh_password ssh_private_key ssh_port).2 = n + 1 ∧
          (proxmox_install_software env node vmid software ip_address ssh_user ssh_password
              ssh_private_key ssh_port).2.all isAgentPathCall = true) ∧
    (∀ (env : PxEnv) (node vmid software ip_address ssh_user ssh_password ssh_private_key :
          String) (ssh_port : Int) (pid : Nat),
        (pyTruthy node && pyTruthy vmid && pyTruthy software) = true →
        env.credsOk = true → env.authExc = none →
        env.agentInfoRes = .ok () → env.agentExecRes = .ok (some pid) → pid ≠ 0 →
        (∀ k, k < 60 → ∃ stk, env.agentExecStatus pid k = .ok stk ∧ stk.exited ≠ some 1) →
        (proxmox_install_software env node vmid software ip_address ssh_user ssh_password
              ssh_private_key ssh_port).1 =
            .ok ("⏳ Agent command for " ++ q software ++ " started (PID " ++ Nat.repr pid ++
              "), but timed out. Check VM manually.") ∧
          countStatusCalls (proxmox_install_software env node vmid software ip_address
              ssh_user ssh_password ssh_private_key ssh_port).2 = 60 ∧
          (proxmox_install_software env node vmid software ip_address ssh_user ssh_password
              ssh_private_key ssh_port).2.all isAgentPathCall = true) := by
  refine ⟨?_, ?_, ?_, ?_⟩
  · intro env node vmid command ip_address ssh_user ssh_password ssh_private_key ssh_port
      pid n out errD hargs hcreds hauth hinfo hexec hpid hn hpre hst
    have hpre0 : ∀ k, k < n → ∃ stk, env.agentExecStatus pid (0 + k) = .ok stk ∧
        stk.exited ≠ some 1 := by simpa using hpre
    have hst0 : env.agentExecStatus pid (0 + n) = .ok ⟨some 1, some 0, some out, errD⟩ := by
      simpa using hst
    obtain ⟨t, hloop, hcount, hall⟩ :=
      agentPollLoop_success env node vmid pid _ rfl n 30 0 hn hpre0 hst0
    rw [countStatusCalls] at hcount
    have hphase : executeCommandAgentPhase env node vmid command =
        (.ok ("✅ Agent command executed successfully.\nOutput: " ++ out),
         [.agentInfoGet node vmid,
          .agentExecPost node vmid ["/bin/bash", "-c", command]] ++ t) := by
      rw [executeCommandAgentPhase]
      simp [M_bind_def, fromExcept, hinfo, hexec, mBind_ok_pair, hpid, hloop, mPure]
    rw [proxmox_execute_command, if_neg (by simp [hargs]),
      get_proxmox_client_ok env hcreds hauth]
    simp [M_bind_def, mBind_ok_pair, tryResource, hphase, log_activity, countStatusCalls,
      List.countP_append, List.countP_cons, isStatusCall, isAgentPathCall, List.all_append,
      hall, hcount]
  · intro env node vmid command ip_address ssh_user ssh_password ssh_private_key ssh_port
      pid hargs hcreds hauth hinfo hexec hpid hpre
    have hpre0 : ∀ k, k < 30 → ∃ stk, env.agentExecStatus pid (0 + k) = .ok stk ∧
        stk.exited ≠ some 1 := by simpa using hpre
    obtain ⟨t, hloop, hcount, hall⟩ := agentPollLoop_timeout env node vmid pid 30 0 hpre0
    rw [countStatusCalls] at hcount
    have hphase : executeCommandAgentPhase env node vmid command =
        (.ok ("⏳ Agent command started (PID " ++ Nat.repr pid ++ "), but timed out."),
         [.agentInfoGet node vmid,
          .agentExecPost node vmid ["/bin/bash", "-c", command]] ++ t) := by
      rw [executeCommandAgentPhase]
      simp [M_bind_def, fromExcept, hinfo, hexec, mBind_ok_pair, hpid, hloop, mPure]
    rw [proxmox_execute_command, if_neg (by simp [hargs]),
      get_proxmox_client_ok env hcreds hauth]
    simp [M_bind_def, mBind_ok_pair, tryResource, hphase, log_activity, countStatusCalls,
      List.countP_append, List.countP_cons, isStatusCall, isAgentPathCall, List.all_append,
      hall, hcount]
  · intro env node vmid software ip_address ssh_user ssh_password ssh_private_key ssh_port
      pid n out errD hargs hcreds hauth hinfo hexec hpid hn hpre hst
    have hpre0 : ∀ k, k < n → ∃ stk, env.agentExecStatus pid (0 + k) = .ok stk ∧
        stk.exited ≠ some 1 := by simpa using hpre
    have hst0 : env.agentExecStatus pid (0 + n) = .ok ⟨some 1, some 0, some out, errD⟩ := by
      simpa using hst
    obtain ⟨t, hloop, hcount, hall⟩ :=
      agentPollLoop_success env node vmid pid _ rfl n 60 0 hn hpre0 hst0
    rw [countStatusCalls] at hcount
    have hphase : installSoftwareAgentPhase env node vmid software =
        (.ok ("✅ " ++ q software ++ " installed successfully via Guest Agent!\nOutput: " ++
            out),
         [.agentInfoGet node vmid,
          .agentExecPost node vmid ["/bin/bash", "-c", installCommandAgent software]] ++ t) := by
      rw [installSoftwareAgentPhase]
      simp [M_bind_def, fromExcept, hinfo, hexec, mBind_ok_pair, hpid, hloop, mPure]
    rw [proxmox_install_software, if_neg (by simp [hargs]),
      get_proxmox_client_ok env hcreds hauth]
    simp [M_bind_def, mBind_ok_pair, tryResource, hphase, log_activity, countStatusCalls,
      List.countP_append, List.countP_cons, isStatusCall, isAgentPathCall, List.all_append,
      hall, hcount]
  · intro env node vmid software ip_address ssh_user ssh_password ssh_private_key ssh_port
      pid hargs hcreds hauth hinfo hexec hpid hpre
    have hpre0 : ∀ k, k < 60 → ∃ stk, env.agentExecStatus pid (0 + k) = .ok stk ∧
        stk.exited ≠ some 1 := by simpa using hpre
    obtain ⟨t, hloop, hcount, hall⟩ := agentPollLoop_timeout env node vmid pid 60 0 hpre0
    rw [countStatusCalls] at hcount
    have hphase : installSoftwareAgentPhase env node vmid software =
        (.ok ("⏳ Agent command for " ++ q software ++ " started (PID " ++ Nat.repr pid ++
            "), but timed out. Check VM manually."),
         [.agentInfoGet node vmid,
          .agentExecPost node vmid ["/bin/bash", "-c", installCommandAgent software]] ++ t) := by
      rw [installSoftwareAgentPhase]
      simp [M_bind_def, fromExcept, hinfo, hexec, mBind_ok_pair, hpid, hloop, mPure]
    rw [proxmox_install_software, if_neg (by simp [hargs]),
      get_proxmox_client_ok env hcreds hauth]
    simp [M_bind_def, mBind_ok_pair, tryResource, hphase, log_activity, countStatusCalls,
      List.countP_append, List.countP_cons, isStatusCall, isAgentPathCall, List.all_append,
      hall, hcount]

/-- C3 witness: with the sample oracle the agent command exits successfully
at the third poll (n = 2 < 30) with output `"HI"`, and with a
never-exiting oracle the operation times out after exactly 30 polls, via
`claim_C3`. -/
theorem claim_C3_witness :
    ((proxmox_execute_command sampleEnv "n" "100" "ls" "" "" "" "" 22).1 =
        .ok ("✅ Agent command executed successfully.\nOutput: " ++ "HI") ∧
      countStatusCalls (proxmox_execute_command sampleEnv "n" "100" "ls" "" "" "" "" 22).2 =
        3 ∧
      (proxmox_execute_command sampleEnv "n" "100" "ls" "" "" "" "" 22).2.all
        isAgentPathCall = true) ∧
    ((proxmox_execute_command
          { sampleEnv with agentExecStatus := fun _ _ => .ok ⟨none, none, none, none⟩ }
          "n" "100" "ls" "" "" "" "" 22).1 =
        .ok ("⏳ Agent command started (PID " ++ Nat.repr 77 ++ "), but timed out.") ∧
      countStatusCalls (proxmox_execute_command
          { sampleEnv with agentExecStatus := fun _ _ => .ok ⟨none, none, none, none⟩ }
          "n" "100" "ls" "" "" "" "" 22).2 = 30 ∧
      (proxmox_execute_command
          { sampleEnv with agentExecStatus := fun _ _ => .ok ⟨none, none, none, none⟩ }
          "n" "100" "ls" "" "" "" "" 22).2.all isAgentPathCall = true) := by
  constructor
  · refine claim_C3.1 sampleEnv "n" "100" "ls" "" "" "" "" 22 77 2 "HI" none rfl rfl rfl
      rfl rfl (by decide) (by decide) ?_ rfl
    intro k hk
    have hk01 : k = 0 ∨ k = 1 := by omega
    rcases hk01 with rfl | rfl <;> exact ⟨⟨none, some 0, some "HI", none⟩, rfl, by decide⟩
  · refine claim_C3.2.1 { sampleEnv with agentExecStatus := fun _ _ => .ok ⟨none, none, none, none⟩ }
      "n" "100" "ls" "" "" "" "" 22 77 rfl rfl rfl rfl rfl (by decide) ?_
    intro k hk
    exact ⟨⟨none, none, none, none⟩, rfl, by decide⟩

/-! ## C8: return-value shapes -/

theorem listStartsWith_extend (p : List Char) :
    ∀ a b, listStartsWith p a = true → listStartsWith p (a ++ b) = true := by
  induction p with
  | nil => intro a b h; rfl
  | cons c p ih =>
    intro a b h
    cases a with
    | nil => simp [listStartsWith] at h
    | cons a0 arest =>
      rw [listStartsWith] at h
      rw [List.cons_append, listStartsWith]
      simp only [Bool.and_eq_true] at h ⊢
      exact ⟨h.1, ih arest b h.2⟩

theorem strStarts_append_left (a b pre : String) (h : strStarts a pre = true) :
    strStarts (a ++ b) pre = true := by
  rw [strStarts] at h ⊢
  have hdata : (a ++ b).toList = a.toList ++ b.toList := rfl
  rw [hdata]
  exact listStartsWith_extend _ _ _ h

theorem listStartsWith_trans (p : List Char) :
    ∀ a s, listStartsWith a s = true → listStartsWith p a = true →
      listStartsWith p s = true := by
  induction p with
  | nil => intro a s h1 h2; rfl
  | cons c p ih =>
    intro a s h1 h2
    cases a with
    | nil => simp [listStartsWith] at h2
    | cons a0 arest =>
      cases s with
      | nil => simp [listStartsWith] at h1
      | cons s0 srest =>
        rw [listStartsWith] at h1 h2 ⊢
        simp only [Bool.and_eq_true] at h1 h2 ⊢
        refine ⟨?_, ih arest srest h1.2 h2.2⟩
        have e1 : a0 = s0 := by simpa using h1.1
        have e2 : c = a0 := by simpa using h2.1
        simp [e1, e2]

theorem strStarts_trans (s a pre : String) (h1 : strStarts s a = true)
    (h2 : strStarts a pre = true) : strStarts s pre = true := by
  rw [strStarts] at h1 h2 ⊢
  exact listStartsWith_trans _ _ _ h1 h2

theorem listStartsWith_refl (l : List Char) : listStartsWith l l = true := by
  induction l with
  | nil => rfl
  | cons c cs ih => rw [listStartsWith]; simp [ih]

theorem strStarts_refl (s : String) : strStarts s s = true := listStartsWith_refl _

theorem pyJoin_starts (sep a : String) (l : List String) :
    strStarts (pyJoin sep (a :: l)) a = true := by
  cases l with
  | nil =>
    rw [pyJoin]
    exact strStarts_refl a
  | cons b rest =>
    rw [pyJoin]
    apply strStarts_append_left
    apply strStarts_append_left
    exact strStarts_refl a

/-- C8 counterexample: the `list` action of `proxmox_manage_snapshot` on a
VM with no snapshots returns `"No snapshots found for VM 100."`, which is
not prefixed with any success/warning/error marker — refuting "every
possible return value ... is prefixed with a success, warning, or error
marker". -/
theorem claim_C8_counterexample :
    (proxmox_manage_snapshot sampleEnv "node1" "100" "list" "" "").1 =
      .ok "No snapshots found for VM 100." ∧
    startsWithStatusMarker "No snapshots found for VM 100." = false := by
  exact ⟨rfl, rfl⟩

/-- C8 (amended): every return value of the modelled operations is a single
status string, but not every one carries a success/warning/error marker:
every possible output of `proxmox_manage_snapshot` starts with a marker,
with `📸`, `↩️` or `🗑️`, or with the unmarked `"No snapshots found"`, and
every possible output of `proxmox_get_server_specs` starts with the plain
words `"SERVER SPECIFICATIONS"` or `"Error"` and never carries an emoji
marker. -/
theorem claim_C8 :
    (∀ (env : PxEnv) (node vmid action name description : String),
        ∃ s, (proxmox_manage_snapshot env node vmid action name description).1 = .ok s ∧
          (startsWithStatusMarker s = true ∨ strStarts s "📸" = true ∨
            strStarts s "↩️" = true ∨ strStarts s "🗑️" = true ∨
            strStarts s "No snapshots found" = true)) ∧
    (∀ (env : PxEnv) (node : String),
        ∃ s, (proxmox_get_server_specs env node).1 = .ok s ∧
          (strStarts s "SERVER SPECIFICATIONS" = true ∨ strStarts s "Error" = true)) := by
  constructor
  · intro env node vmid action name description
    rw [proxmox_manage_snapshot]
    have hhandler : ∀ e : Exc, startsWithStatusMarker
        ("❌ Error managing snapshot (" ++ action ++ "): " ++ e.msg) = true := by
      intro e
      have hx : strStarts ("❌ Error managing snapshot (" ++ action ++ "): " ++ e.msg)
          "❌" = true := by
        apply strStarts_append_left
        apply strStarts_append_left
        apply strStarts_append_left
        rfl
      simp [startsWithStatusMarker, hx]
    by_cases hargs : pyStrip node = "" ∨ pyStrip vmid = "" ∨
        action ∉ (["create", "list", "rollback", "delete"] : List String)
    · rw [if_pos hargs]
      exact ⟨snapArgsMsg, rfl, Or.inl (by rfl)⟩
    · rw [if_neg hargs]
      cases hcreds : env.credsOk
      · refine ⟨"❌ Error managing snapshot (" ++ action ++ "): " ++
          "Missing Proxmox credentials. Set PROXMOX_URL, PROXMOX_USER, and PROXMOX_PASSWORD.",
          ?_, Or.inl (hhandler ⟨false,
          "Missing Proxmox credentials. Set PROXMOX_URL, PROXMOX_USER, and PROXMOX_PASSWORD."⟩)⟩
        simp [get_proxmox_client, hcreds, throwExc, M_bind_def, mBind, tryAll, log_activity,
          mPure]
      · cases hauth : env.authExc with
        | some e =>
          refine ⟨"❌ Error managing snapshot (" ++ action ++ "): " ++ e.msg, ?_,
            Or.inl (hhandler e)⟩
          simp [get_proxmox_client, hcreds, hauth, M_bind_def, mBind, tryAll, log_activity,
            mPure]
        | none =>
          rw [get_proxmox_client_ok env hcreds hauth]
          by_cases ha1 : action = "create"
          · by_cases hnm : pyStrip name = ""
            · refine ⟨"❌ Error: Snapshot name is required for create action.", ?_,
                Or.inl (by rfl)⟩
              simp [ha1, hnm, M_bind_def, mBind_ok_pair, tryAll, log_activity, mPure]
            · cases hsc : env.snapshotCreateRes with
              | error e =>
                refine ⟨"❌ Error managing snapshot (" ++ action ++ "): " ++ e.msg, ?_,
                  Or.inl (hhandler e)⟩
                simp [ha1, hnm, hsc, fromExcept, M_bind_def, mBind, mBind_ok_pair, tryAll,
                  log_activity, mPure]
              | ok u =>
                refine ⟨"📸 Snapshot " ++ q name ++ " created for VM " ++ vmid ++ ".", ?_,
                  Or.inr (Or.inl ?_)⟩
                · simp [ha1, hnm, hsc, fromExcept, M_bind_def, mBind, mBind_ok_pair, tryAll,
                    log_activity, mPure]
                · apply strStarts_append_left
                  apply strStarts_append_left
                  apply strStarts_append_left
                  apply strStarts_append_left
                  rfl
          · by_cases ha2 : action = "list"
            · cases hsl : env.snapshotListRes with
              | error e =>
                refine ⟨"❌ Error managing snapshot (" ++ action ++ "): " ++ e.msg, ?_,
                  Or.inl (hhandler e)⟩
                simp [ha1, ha2, hsl, fromExcept, M_bind_def, mBind, mBind_ok_pair, tryAll,
                  log_activity, mPure]
              | ok snaps =>
                cases snaps with
                | nil =>
                  refine ⟨"No snapshots found for VM " ++ vmid ++ ".", ?_,
                    Or.inr (Or.inr (Or.inr (Or.inr ?_)))⟩
                  · simp [ha1, ha2, hsl, fromExcept, M_bind_def, mBind, mBind_ok_pair,
                      tryAll, log_activity, mPure]
                  · apply strStarts_append_left
                    apply strStarts_append_left
                    rfl
                | cons s0 srest =>
                  refine ⟨pyJoin "\n" (("📸 Snapshots for VM " ++ vmid ++ ":") ::
                    (s0 :: srest).map snapLine), ?_, Or.inr (Or.inl ?_)⟩
                  · simp [ha1, ha2, hsl, fromExcept, M_bind_def, mBind, mBind_ok_pair,
                      tryAll, log_activity, mPure]
                  · exact strStarts_trans _ ("📸 Snapshots for VM " ++ vmid ++ ":") _
                      (pyJoin_starts "\n" _ ((s0 :: srest).map snapLine))
                      (by apply strStarts_append_left; apply strStarts_append_left; rfl)
            · by_cases ha3 : action = "rollback"
              · by_cases hnm : pyStrip name = ""
                · refine ⟨"❌ Error: Snapshot name is required for rollback action.", ?_,
                    Or.inl (by rfl)⟩
                  simp [ha1, ha2, ha3, hnm, M_bind_def, mBind_ok_pair, tryAll, log_activity,
                    mPure]
                · cases hsr : env.snapshotRollbackRes with
                  | error e =>
                    refine ⟨"❌ Error managing snapshot (" ++ action ++ "): " ++ e.msg, ?_,
                      Or.inl (hhandler e)⟩
                    simp [ha1, ha2, ha3, hnm, hsr, fromExcept, M_bind_def, mBind,
                      mBind_ok_pair, tryAll, log_activity, mPure]
                  | ok u =>
                    refine ⟨"↩️ VM " ++ vmid ++ " rollback to snapshot " ++ q name ++
                      " initiated.", ?_, Or.inr (Or.inr (Or.inl ?_))⟩
                    · simp [ha1, ha2, ha3, hnm, hsr, fromExcept, M_bind_def, mBind,
                        mBind_ok_pair, tryAll, log_activity, mPure]
                    · apply strStarts_append_left
                      apply strStarts_append_left
                      apply strStarts_append_left
                      apply strStarts_append_left
                      rfl
              · by_cases hnm : pyStrip name = ""
                · refine ⟨"❌ Error: Snapshot name is required for delete action.", ?_,
                    Or.inl (by rfl)⟩
                  simp [ha1, ha2, ha3, hnm, M_bind_def, mBind_ok_pair, tryAll, log_activity,
                    mPure]
                · cases hsd : env.snapshotDeleteRes with
                  | error e =>
                    refine ⟨"❌ Error managing snapshot (" ++ action ++ "): " ++ e.msg, ?_,
                      Or.inl (hhandler e)⟩
                    simp [ha1, ha2, ha3, hnm, hsd, fromExcept, M_bind_def, mBind,
                      mBind_ok_pair, tryAll, log_activity, mPure]
                  | ok u =>
                    refine ⟨"🗑️ Snapshot " ++ q name ++ " deleted for VM " ++ vmid ++ ".",
                      ?_, Or.inr (Or.inr (Or.inr (Or.inl ?_)))⟩
                    · simp [ha1, ha2, ha3, hnm, hsd, fromExcept, M_bind_def, mBind,
                        mBind_ok_pair, tryAll, log_activity, mPure]
                    · apply strStarts_append_left
                      apply strStarts_append_left
                      apply strStarts_append_left
                      apply strStarts_append_left
                      rfl
  · intro env node
    rw [proxmox_get_server_specs]
    by_cases h : pyStrip node = ""
    · rw [if_pos h]
      exact ⟨"Error: Node name is required.", rfl, Or.inr (by rfl)⟩
    · rw [if_neg h]
      cases hcreds : env.credsOk
      · refine ⟨"Error getting server specifications: " ++
          "Missing Proxmox credentials. Set PROXMOX_URL, PROXMOX_USER, and PROXMOX_PASSWORD.",
          ?_, Or.inr (strStarts_append_left _ _ _ (by rfl))⟩
        simp [get_proxmox_client, hcreds, throwExc, M_bind_def, mBind, tryAll, mPure]
      · cases hauth : env.authExc with
        | some e =>
          refine ⟨"Error getting server specifications: " ++ e.msg, ?_,
            Or.inr (strStarts_append_left _ _ _ (by rfl))⟩
          simp [get_proxmox_client, hcreds, hauth, M_bind_def, mBind, tryAll, mPure]
        | none =>
          rw [get_proxmox_client_ok env hcreds hauth]
          cases hver : env.versionRes with
          | error e =>
            refine ⟨"Error getting server specifications: " ++ e.msg, ?_,
              Or.inr (strStarts_append_left _ _ _ (by rfl))⟩
            simp [hver, fromExcept, M_bind_def, mBind, mBind_ok_pair, tryAll, mPure]
          | ok v =>
            cases hns : env.nodeStatusRes with
            | error e =>
              refine ⟨"Error getting server specifications: " ++ e.msg, ?_,
                Or.inr (strStarts_append_left _ _ _ (by rfl))⟩
              simp [hver, hns, fromExcept, M_bind_def, mBind, mBind_ok_pair, tryAll, mPure]
            | ok ns =>
              refine ⟨"SERVER SPECIFICATIONS - Node: " ++ node ++ "\n" ++ specSep ++ "\n" ++
                "Proxmox Version: " ++ v.version.getD "Unknown" ++ "\n\n" ++
                "CPU Information:\n" ++
                "- Model: " ++ ns.cpuModel.getD "Unknown" ++ "\n" ++
                "- Cores: " ++ Nat.repr (ns.cpuCores.getD 0) ++ "\n\n" ++
                "Memory (RAM):\n" ++
                "- Total: " ++ Nat.repr (ns.memTotal.getD 0 / (1024 * 1024 * 1024)) ++
                " GB\n" ++
                "- Used: " ++ Nat.repr (ns.memUsed.getD 0 / (1024 * 1024 * 1024)) ++
                " GB\n\n" ++ specSep, ?_, Or.inl ?_⟩
              · simp [hver, hns, fromExcept, M_bind_def, mBind, mBind_ok_pair, tryAll, mPure]
              · repeat apply strStarts_append_left
                rfl

/-! ## C6: placeholder substitution on placeholder-free documents -/

theorem placeholderTarget_none (text key : String) (h : keyAbsent text key = true) :
    placeholderTarget text key = none := by
  rw [keyAbsent, Bool.and_eq_true] at h
  simp only [Bool.not_eq_true'] at h
  simp [placeholderTarget, h.1, h.2]

theorem bodyParaStep_skip (fe : String → Bool) (st : ParaFoldState) (kv : String × String)
    (h : keyAbsent (paraText st.cur) kv.1 = true) : bodyParaStep fe st kv = st := by
  simp [bodyParaStep, placeholderTarget_none _ _ h]

theorem bodyParaFold_skip (fe : String → Bool) (phs : List (String × String)) :
    ∀ st : ParaFoldState, (∀ kv ∈ phs, keyAbsent (paraText st.cur) kv.1 = true) →
      phs.foldl (bodyParaStep fe) st = st := by
  induction phs with
  | nil => intro st h; rfl
  | cons kv rest ih =>
    intro st h
    rw [List.foldl_cons, bodyParaStep_skip fe st kv (h kv (by simp))]
    exact ih st (fun kv2 hm => h kv2 (by simp [hm]))

theorem replaceInBodyPara_id (fe : String → Bool) (phs : List (String × String)) (p : Para)
    (h : ∀ kv ∈ phs, keyAbsent (paraText p) kv.1 = true) :
    replaceInBodyPara fe phs p = ([p], []) := by
  rw [replaceInBodyPara, bodyParaFold_skip fe phs ⟨[], p, []⟩ h]
  rfl

theorem cellParaStep_skip (fe : String → Bool) (st : Para × List DocTable)
    (kv : String × String) (h : keyAbsent (paraText st.1) kv.1 = true) :
    cellParaStep fe st kv = st := by
  simp [cellParaStep, placeholderTarget_none _ _ h]

theorem cellParaFold_skip (fe : String → Bool) (phs : List (String × String)) :
    ∀ st : Para × List DocTable, (∀ kv ∈ phs, keyAbsent (paraText st.1) kv.1 = true) →
      phs.foldl (cellParaStep fe) st = st := by
  induction phs with
  | nil => intro st h; rfl
  | cons kv rest ih =>
    intro st h
    rw [List.foldl_cons, cellParaStep_skip fe st kv (h kv (by simp))]
    exact ih st (fun kv2 hm => h kv2 (by simp [hm]))

theorem replaceInCellPara_id (fe : String → Bool) (phs : List (String × String)) (p : Para)
    (h : ∀ kv ∈ phs, keyAbsent (paraText p) kv.1 = true) :
    replaceInCellPara fe phs p = (p, []) := by
  rw [replaceInCellPara, cellParaFold_skip fe phs (p, []) h]

theorem replaceInCell_id (fe : String → Bool) (phs : List (String × String)) (c : DocCell)
    (h : ∀ p ∈ c.paras, ∀ kv ∈ phs, keyAbsent (paraText p) kv.1 = true) :
    replaceInCell fe phs c = (c, []) := by
  rw [replaceInCell]
  have hfold : ∀ (ps : List Para) (a : List Para) (b : List DocTable),
      (∀ p ∈ ps, ∀ kv ∈ phs, keyAbsent (paraText p) kv.1 = true) →
      ps.foldl (fun (acc : List Para × List DocTable) p =>
          (acc.1 ++ [(replaceInCellPara fe phs p).1],
           acc.2 ++ (replaceInCellPara fe phs p).2)) (a, b) = (a ++ ps, b) := by
    intro ps
    induction ps with
    | nil => intro a b hh; simp
    | cons p rest ih =>
      intro a b hh
      rw [List.foldl_cons, replaceInCellPara_id fe phs p (hh p (by simp))]
      have := ih (a ++ [p]) b (fun p2 hm => hh p2 (by simp [hm]))
      simpa using this
  rw [hfold c.paras [] [] h]
  cases c
  rfl

theorem replaceInRow_id (fe : String → Bool) (phs : List (String × String))
    (row : List DocCell)
    (h : ∀ c ∈ row, ∀ p ∈ c.paras, ∀ kv ∈ phs, keyAbsent (paraText p) kv.1 = true) :
    replaceInRow fe phs row = (row, []) := by
  rw [replaceInRow]
  have hfold : ∀ (cs : List DocCell) (a : List DocCell) (b : List DocTable),
      (∀ c ∈ cs, ∀ p ∈ c.paras, ∀ kv ∈ phs, keyAbsent (paraText p) kv.1 = true) →
      cs.foldl (fun (acc2 : List DocCell × List DocTable) c =>
          (acc2.1 ++ [(replaceInCell fe phs c).1],
           acc2.2 ++ (replaceInCell fe phs c).2)) (a, b) = (a ++ cs, b) := by
    intro cs
    induction cs with
    | nil => intro a b hh; simp
    | cons c rest ih =>
      intro a b hh
      rw [List.foldl_cons, replaceInCell_id fe phs c (hh c (by simp))]
      have := ih (a ++ [c]) b (fun c2 hm => hh c2 (by simp [hm]))
      simpa using this
  exact hfold row [] [] h

theorem replaceInTable_id (fe : String → Bool) (phs : List (String × String)) (t : DocTable)
    (h : ∀ row ∈ t.rows, ∀ c ∈ row, ∀ p ∈ c.paras, ∀ kv ∈ phs,
      keyAbsent (paraText p) kv.1 = true) :
    replaceInTable fe phs t = (t, []) := by
  rw [replaceInTable]
  have hfold : ∀ (rows : List (List DocCell)) (a : List (List DocCell)) (b : List DocTable),
      (∀ row ∈ rows, ∀ c ∈ row, ∀ p ∈ c.paras, ∀ kv ∈ phs,
        keyAbsent (paraText p) kv.1 = true) →
      rows.foldl (fun (acc : List (List DocCell) × List DocTable) row =>
          (acc.1 ++ [(replaceInRow fe phs row).1],
           acc.2 ++ (replaceInRow fe phs row).2)) (a, b) = (a ++ rows, b) := by
    intro rows
    induction rows with
    | nil => intro a b hh; simp
    | cons row rest ih =>
      intro a b hh
      rw [List.foldl_cons, replaceInRow_id fe phs row (hh row (by simp))]
      have := ih (a ++ [row]) b (fun r2 hm => hh r2 (by simp [hm]))
      simpa using this
  rw [hfold t.rows [] [] h]
  cases t
  rfl

/-- C6: when no paragraph or table-cell text of the document contains any
placeholder key — plain or bracket-delimited — `replace_placeholders_in_doc`
leaves the document unchanged; in particular a second substitution pass
after one that removed every placeholder produces no change. -/
theorem claim_C6 (fe : String → Bool) (doc : WordDoc) (phs : List (String × String))
    (h : noPlaceholderInDoc doc phs = true) :
    replace_placeholders_in_doc fe doc phs = doc := by
  rw [noPlaceholderInDoc, List.all_eq_true] at h
  have htexts : ∀ text ∈ docTexts doc, ∀ kv ∈ phs, keyAbsent text kv.1 = true := by
    intro text hm kv hkv
    have := h text hm
    rw [List.all_eq_true] at this
    exact this kv hkv
  have hp : ∀ p ∈ doc.paras, ∀ kv ∈ phs, keyAbsent (paraText p) kv.1 = true := by
    intro p hm
    exact htexts (paraText p) (by
      rw [docTexts]
      exact List.mem_append_left _ (List.mem_map_of_mem paraText hm))
  have hc : ∀ t ∈ doc.tables, ∀ row ∈ t.rows, ∀ c ∈ row, ∀ p ∈ c.paras, ∀ kv ∈ phs,
      keyAbsent (paraText p) kv.1 = true := by
    intro t hmt row hmr c hmc p hmp
    refine htexts (paraText p) ?_
    rw [docTexts]
    refine List.mem_append_right _ ?_
    rw [List.mem_flatten]
    refine ⟨_, List.mem_map_of_mem _ hmt, ?_⟩
    rw [List.mem_flatten]
    refine ⟨_, List.mem_map_of_mem _ hmr, ?_⟩
    rw [List.mem_flatten]
    exact ⟨_, List.mem_map_of_mem _ hmc, List.mem_map_of_mem paraText hmp⟩
  rw [replace_placeholders_in_doc]
  have hbody : ∀ (ps : List Para) (a : List Para) (b : List DocTable),
      (∀ p ∈ ps, ∀ kv ∈ phs, keyAbsent (paraText p) kv.1 = true) →
      ps.foldl (fun (acc : List Para × List DocTable) p =>
          (acc.1 ++ (replaceInBodyPara fe phs p).1,
           acc.2 ++ (replaceInBodyPara fe phs p).2)) (a, b) = (a ++ ps, b) := by
    intro ps
    induction ps with
    | nil => intro a b hh; simp
    | cons p rest ih =>
      intro a b hh
      rw [List.foldl_cons, replaceInBodyPara_id fe phs p (hh p (by simp))]
      have := ih (a ++ [p]) b (fun p2 hm => hh p2 (by simp [hm]))
      simpa using this
  rw [hbody doc.paras [] [] hp]
  have htbl : ∀ (ts : List DocTable) (a : List DocTable) (b : List DocTable),
      (∀ t ∈ ts, ∀ row ∈ t.rows, ∀ c ∈ row, ∀ p ∈ c.paras, ∀ kv ∈ phs,
        keyAbsent (paraText p) kv.1 = true) →
      ts.foldl (fun (acc : List DocTable × List DocTable) t =>
          (acc.1 ++ [(replaceInTable fe phs t).1],
           acc.2 ++ (replaceInTable fe phs t).2)) (a, b) = (a ++ ts, b) := by
    intro ts
    induction ts with
    | nil => intro a b hh; simp
    | cons t rest ih =>
      intro a b hh
      rw [List.foldl_cons, replaceInTable_id fe phs t (hh t (by simp))]
      have := ih (a ++ [t]) b (fun t2 hm => hh t2 (by simp [hm]))
      simpa using this
  rw [List.append_nil]
  rw [htbl doc.tables [] [] hc]
  cases doc
  simp

/-- C6 witness: the sample placeholder-free document is unchanged by a
substitution pass with the placeholder map of the repository's template
callers, via `claim_C6`. -/
theorem claim_C6_witness :
    noPlaceholderInDoc sampleDoc [("\x7bdomain\x7d", "example.org")] = true ∧
    replace_placeholders_in_doc (fun _ => false) sampleDoc
      [("\x7bdomain\x7d", "example.org")] = sampleDoc := by
  exact ⟨rfl, claim_C6 (fun _ => false) sampleDoc [("\x7bdomain\x7d", "example.org")] rfl⟩

/-! ## C7: the concrete spreadsheet example -/

/-- C7: `document_generate_excel` without a template, with data
`[["a","b"],["1","2"]]` and the default output name saves a workbook whose
active sheet holds exactly the two rows `a, b` and `1, 2`, and returns the
success message naming the output path (for every oracle whose save
succeeds). -/
theorem claim_C7 (env : DocEnv) (h : env.saveWorkbookRes = .ok ()) :
    document_generate_excel env "[[\"a\",\"b\"],[\"1\",\"2\"]]" "" "" =
      (.ok "✅ Excel document generated successfully: /app/outputs/document.xlsx",
       [.ensureOutputDir,
        .workbookSave "/app/outputs/document.xlsx"
          [[.str "a", .str "b"], [.str "1", .str "2"]]]) := by
  rw [document_generate_excel, if_neg (by decide), h]
  rfl

/-- C7 witness: the same run at the sample oracle, via `claim_C7`. -/
theorem claim_C7_witness :
    document_generate_excel sampleDocEnv "[[\"a\",\"b\"],[\"1\",\"2\"]]" "" "" =
      (.ok "✅ Excel document generated successfully: /app/outputs/document.xlsx",
       [.ensureOutputDir,
        .workbookSave "/app/outputs/document.xlsx"
          [[.str "a", .str "b"], [.str "1", .str "2"]]]) :=
  claim_C7 sampleDocEnv rfl

end MCP
